import Mathlib

/-!
# Resource handlers of the alicloud provider: CEN route entry and managed Kubernetes

A shallow embedding of
`alicloud/resource_alicloud_cen_route_entry.go` and
`alicloud/resource_alicloud_cs_managed_kubernetes.go`.

Every handler is a pure function of

* the named constants it refers to (`Consts`: they are declared in other files of
  the package, so their literal values are parameters here),
* the remote system (`Remote`): each operation answers as a function of the
  history of events so far, which covers every deterministic remote system,
* the resource data `d` it is handed, and
* the event history `tr`, to which every remote call, every `d.SetId` and every
  file write is appended in program order.

`resource.Retry(timeout, f)` is a bounded loop: the wall-clock ceiling becomes a
bound on the number of attempts, and `time.Sleep` has no effect here.
`invoker.Run(f)` / `client.WithXClient(f)` around one SDK call is one remote
operation of `Remote`.
-/

namespace Alicloud

/-! ## Errors -/

/-- Error value coming back from the vendor SDK or the service layer: its error
code, and whether it belongs to the not-found tier. -/
structure Err where
  code : String
  notFound : Bool
deriving DecidableEq, Repr

/-- Go `error` values built by the handlers. -/
inductive Error where
  | sdk (e : Err)
  | Errorf (format : String)
  | ErrorfWith (format : String) (cause : Error)
  | WrapError (cause : Error)
  | WrapErrorf (cause : Error) (msg : String)
deriving DecidableEq, Repr

/-- Modelled from the spec: `NotFoundError` is declared outside the given sources;
the spec has a *not-found* tier of errors, which an error value carries as a flag. -/
def NotFoundError (e : Err) : Bool := e.notFound

/-- Modelled from the spec: `IsExceptedError` is declared outside the given sources;
an error is "matched against a known error-code allow-list", here one code. -/
def IsExceptedError (e : Err) (expectCode : String) : Bool := e.code == expectCode

/-- Modelled from the spec: `IsExceptedErrors` is declared outside the given sources;
an error is "identified by an allow-list of error codes". -/
def IsExceptedErrors (e : Err) (expectCodes : List String) : Bool :=
  expectCodes.any (fun c => IsExceptedError e c)

/-- Named constants the two files use and that are declared elsewhere. -/
structure Consts where
  OperationBlocking : String
  InvalidStateForOperationMsg : String
  InvalidCenInstanceStatus : String
  InternalError : String
  NotFoundRoute : String
  InstanceNotExistMsg : String
  ErrorClusterNotFound : String
  ErrorClusterNameAlreadyExist : String
  NOPUBLISHED : String
  PUBLISHED : String
  Deleted : String
  Deleting : String
  PrePaid : String
  Running : String
  NodeStableClusterState : List String
  PageSizeLarge : Int
  DefaultErrorMsg : String
  DataDefaultErrorMsg : String
deriving Repr

/-- Modelled from the spec: `COLON_SEPARATED` is declared outside the given sources;
identifiers are a "colon-separated string concatenation of key fields". -/
def COLON_SEPARATED : String := ":"

/-! ## Bounded retry -/

/-- The `*resource.RetryError` a retried closure returns when it does not return `nil`. -/
inductive RetryError (ε : Type) where
  | RetryableError (err : ε)
  | NonRetryableError (err : ε)
deriving DecidableEq, Repr

/-- The loop `resource.Retry(timeout, f)`: `f` runs, a `nil` ends the loop with `nil`, a
non-retryable error ends it with that error, a retryable error runs `f` again
until the budget is used up, and then the last error is returned. `Retry f n`
makes at most `n + 1` attempts. -/
def Retry {σ ε : Type} (f : σ → Option (RetryError ε) × σ) : Nat → σ → Option ε × σ
  | 0, s =>
    match f s with
    | (none, s1) => (none, s1)
    | (some (.NonRetryableError e), s1) => (some e, s1)
    | (some (.RetryableError e), s1) => (some e, s1)
  | n + 1, s =>
    match f s with
    | (none, s1) => (none, s1)
    | (some (.NonRetryableError e), s1) => (some e, s1)
    | (some (.RetryableError _), s1) => Retry f n s1

/-! ## Requests, responses and events -/

/-- Fields of `cbn.PublishRouteEntriesRequest` and of
`cbn.WithdrawPublishedRouteEntriesRequest` the handlers fill in. -/
structure RouteEntriesRequest where
  CenId : String
  ChildInstanceId : String
  ChildInstanceType : String
  ChildInstanceRegionId : String
  ChildInstanceRouteTableId : String
  DestinationCidrBlock : String
deriving DecidableEq, Repr

/-- The described route entry, as far as the handler reads it. -/
structure CenRouteEntry where
  PublishStatus : String
  ChildInstanceRouteTableId : String
  DestinationCidrBlock : String
deriving DecidableEq, Repr

/-- Fields of `cs.KubernetesClusterScaleArgs`. -/
structure KubernetesClusterScaleArgs where
  LoginPassword : String
  KeyPair : String
  WorkerInstanceTypes : List String
  WorkerSystemDiskCategory : String
  WorkerSystemDiskSize : Int
  Count : Int
  WorkerDataDisk : Bool
deriving DecidableEq, Repr

/-- Fields of `cs.KubernetesCreationArgs` the argument builder fills in; the others
keep their zero values. -/
structure KubernetesCreationArgs where
  Name : String
  ClusterType : String
  DisableRollback : Bool
  TimeoutMins : Int
  RegionId : String
  WorkerInstanceTypes : List String
  VPCID : String
  VSwitchIds : List String
  LoginPassword : String
  KeyPair : String
  ImageId : String
  Network : String
  NumOfNodes : Int
  WorkerSystemDiskCategory : String
  WorkerSystemDiskSize : Int
  SNatEntry : Bool
  KubernetesVersion : String
  ContainerCIDR : String
  ServiceCIDR : String
  CloudMonitorFlags : Bool
  PublicSLB : Bool
  ZoneId : String
  WorkerDataDiskCategory : String
  WorkerDataDisk : Bool
  WorkerDataDiskSize : Int
  WorkerInstanceChargeType : String
  WorkerAutoRenew : Bool
  WorkerAutoRenewPeriod : Int
  WorkerPeriod : Int
  WorkerPeriodUnit : String
deriving DecidableEq, Repr

/-- The described subnet, as far as the argument builder reads it. -/
structure VSwitch where
  VpcId : String
  ZoneId : String
deriving DecidableEq, Repr

/-- The described cluster (`cs.KubernetesCluster`), as far as Read uses it. -/
structure KubernetesCluster where
  Name : String
  VPCID : String
  SecurityGroupID : String
  ZoneId : String
  State : String
deriving DecidableEq, Repr

/-- The described cluster (`cs.ClusterType`), as far as Delete uses it. -/
structure ClusterType where
  ClusterID : String
  State : String
deriving DecidableEq, Repr

/-- One worker node of a page (`cs.KubernetesNodeType`). -/
structure KubernetesNodeType where
  InstanceId : String
  InstanceName : String
  IpAddress : List String
deriving DecidableEq, Repr

/-- Certificates of a cluster (`cs.ClusterCerts`). -/
structure ClusterCerts where
  CA : String
  Key : String
  Cert : String
deriving DecidableEq, Repr

/-- What a handler does that is visible outside it, in program order: the remote
operations, the local file writes and the assignments of the identifier. -/
inductive Event where
  | CreateCenRouteEntryParas (vtbId : String)
  | PublishRouteEntries (request : RouteEntriesRequest)
  | WithdrawPublishedRouteEntries (request : RouteEntriesRequest)
  | WaitForCenRouterEntry (id : String) (status : String)
  | DescribeCenRouteEntry (id : String)
  | DescribeVSwitch (vswId : String)
  | CreateKubernetesCluster (args : KubernetesCreationArgs)
  | WaitForClusterAsyn (id : String) (status : String)
  | ScaleKubernetesCluster (id : String) (args : KubernetesClusterScaleArgs)
  | ModifyClusterName (id : String) (clusterName : String)
  | DescribeKubernetesCluster (id : String)
  | GetKubernetesClusterNodes (id : String) (pageNumber : Int) (pageSize : Int)
  | GetClusterCerts (id : String)
  | GetClusterConfig (id : String)
  | DeleteCluster (id : String)
  | DescribeCluster (id : String)
  | writeToFile (filePath : String) (data : String)
  | SetId (id : String)
deriving DecidableEq, Repr

/-- Whether an event is a call to the remote system. -/
def Event.isRemote : Event → Bool
  | .writeToFile _ _ => false
  | .SetId _ => false
  | _ => true

/-- The remote system, the local file system and the host helpers, each operation
answering from the history of events before it. `none` is a `nil` error.
`mapPick` is the order in which the Go runtime ranges over a map: at step `i`
it takes the key at position `mapPick i` (modulo their number) of those left. -/
structure Remote where
  RegionId : String
  CreateCenRouteEntryParas : List Event → String → Except Err (String × String)
  PublishRouteEntries : List Event → RouteEntriesRequest → Option Err
  WithdrawPublishedRouteEntries : List Event → RouteEntriesRequest → Option Err
  WaitForCenRouterEntry : List Event → String → String → Option Err
  DescribeCenRouteEntry : List Event → String → Except Err CenRouteEntry
  DescribeVSwitch : List Event → String → Except Err VSwitch
  CreateKubernetesCluster : List Event → KubernetesCreationArgs → Except Err String
  WaitForClusterAsyn : List Event → String → String → Option Err
  ScaleKubernetesCluster : List Event → String → KubernetesClusterScaleArgs → Option Err
  ModifyClusterName : List Event → String → String → Option Err
  DescribeKubernetesCluster : List Event → String → Except Err KubernetesCluster
  GetKubernetesClusterNodes :
    List Event → String → Int → Int → Except Err (List KubernetesNodeType × Int)
  GetClusterCerts : List Event → String → Except Err ClusterCerts
  GetClusterConfig : List Event → String → Except Err String
  DeleteCluster : List Event → String → Option Err
  DescribeCluster : List Event → String → Except Err ClusterType
  writeToFile : List Event → String → String → Option Err
  PrefixedUniqueId : String → String
  mapPick : Nat → Nat

/-- Bounds on the number of attempts of each `resource.Retry` loop (the ceilings of
3, 5, 5 and 30 minutes) and on the number of node pages Read fetches. -/
structure Limits where
  publish : Nat
  withdraw : Nat
  nodesPoll : Nat
  deleteCluster : Nat
  pages : Nat
deriving DecidableEq, Repr

/-- What a handler leaves behind: the `error` it returns (`none` is `nil`), the
resource data and the event history. -/
structure Result (δ : Type) where
  err : Option Error
  d : δ
  trace : List Event
deriving DecidableEq, Repr

/-! ## CEN route entry -/

/-- The resource data of `alicloud_cen_route_entry`: the identifier and the three
attributes of the schema. -/
structure RouteEntryData where
  Id : String
  instance_id : String
  route_table_id : String
  cidr_block : String
deriving DecidableEq, Repr

/-- The call `strings.Split(id, ":")` on the characters of `id`. -/
def splitColon : List Char → List (List Char)
  | [] => [[]]
  | c :: cs =>
    match splitColon cs with
    | [] => [[]]
    | p :: ps => if c = ':' then [] :: p :: ps else (c :: p) :: ps

/-- Modelled from the spec: `ParseResourceId` is declared outside the given sources;
it splits a "colon-separated string concatenation of key fields" and fails unless
the number of parts is `length`. -/
def ParseResourceId (id : String) (length : Nat) : Except Error (List String) :=
  let parts := (splitColon id.toList).map String.mk
  if parts.length ≠ length then
    .error (.WrapError (.Errorf "Invalid Resource Id %s. Expected parts' length %d, got %d"))
  else .ok parts

/-- The closure retried by `resourceAlicloudCenRouteEntryCreate`. -/
def publishAttempt (k : Consts) (env : Remote) (request : RouteEntriesRequest)
    (tr : List Event) : Option (RetryError Err) × List Event :=
  match env.PublishRouteEntries tr request with
  | some err =>
    if IsExceptedErrors err [k.OperationBlocking, k.InvalidStateForOperationMsg] then
      (some (.RetryableError err), tr ++ [.PublishRouteEntries request])
    else
      (some (.NonRetryableError err), tr ++ [.PublishRouteEntries request])
  | none => (none, tr ++ [.PublishRouteEntries request])

/-- The handler `resourceAlicloudCenRouteEntryRead`. -/
def resourceAlicloudCenRouteEntryRead (k : Consts) (env : Remote) (d : RouteEntryData)
    (tr : List Event) : Result RouteEntryData :=
  match ParseResourceId d.Id 3 with
  | .error err => ⟨some (.WrapError err), d, tr⟩
  | .ok parts =>
    let cenId := parts.headD ""
    match env.DescribeCenRouteEntry tr d.Id with
    | .error err =>
      if NotFoundError err then
        ⟨none, { d with Id := "" }, tr ++ [.DescribeCenRouteEntry d.Id, .SetId ""]⟩
      else
        ⟨some (.WrapError (.sdk err)), d, tr ++ [.DescribeCenRouteEntry d.Id]⟩
    | .ok object =>
      if object.PublishStatus = k.NOPUBLISHED then
        ⟨none, { d with Id := "" }, tr ++ [.DescribeCenRouteEntry d.Id, .SetId ""]⟩
      else
        ⟨none,
          { d with
            instance_id := cenId
            route_table_id := object.ChildInstanceRouteTableId
            cidr_block := object.DestinationCidrBlock },
          tr ++ [.DescribeCenRouteEntry d.Id]⟩

/-- The handler `resourceAlicloudCenRouteEntryCreate`. -/
def resourceAlicloudCenRouteEntryCreate (k : Consts) (env : Remote) (lim : Limits)
    (d : RouteEntryData) (tr : List Event) : Result RouteEntryData :=
  let cenId := d.instance_id
  let vtbId := d.route_table_id
  let cidr := d.cidr_block
  match env.CreateCenRouteEntryParas tr vtbId with
  | .error err => ⟨some (.WrapError (.sdk err)), d, tr ++ [.CreateCenRouteEntryParas vtbId]⟩
  | .ok (childInstanceId, childInstanceType) =>
    let request : RouteEntriesRequest :=
      { CenId := cenId
        ChildInstanceId := childInstanceId
        ChildInstanceType := childInstanceType
        ChildInstanceRegionId := env.RegionId
        ChildInstanceRouteTableId := vtbId
        DestinationCidrBlock := cidr }
    match Retry (publishAttempt k env request) lim.publish
        (tr ++ [.CreateCenRouteEntryParas vtbId]) with
    | (some err, tr2) => ⟨some (.WrapErrorf (.sdk err) k.DefaultErrorMsg), d, tr2⟩
    | (none, tr2) =>
      let id := cenId ++ COLON_SEPARATED ++ vtbId ++ COLON_SEPARATED ++ cidr
      let d1 := { d with Id := id }
      let tr3 := tr2 ++ [.SetId id]
      match env.WaitForCenRouterEntry tr3 d1.Id k.PUBLISHED with
      | some err =>
        ⟨some (.WrapError (.sdk err)), d1, tr3 ++ [.WaitForCenRouterEntry d1.Id k.PUBLISHED]⟩
      | none =>
        resourceAlicloudCenRouteEntryRead k env d1
          (tr3 ++ [.WaitForCenRouterEntry d1.Id k.PUBLISHED])

/-- The closure retried by `resourceAlicloudCenRouteEntryDelete`. -/
def withdrawAttempt (k : Consts) (env : Remote) (request : RouteEntriesRequest)
    (tr : List Event) : Option (RetryError Err) × List Event :=
  match env.WithdrawPublishedRouteEntries tr request with
  | some err =>
    if IsExceptedErrors err [k.InvalidCenInstanceStatus, k.InternalError] then
      (some (.RetryableError err), tr ++ [.WithdrawPublishedRouteEntries request])
    else
      (some (.NonRetryableError err), tr ++ [.WithdrawPublishedRouteEntries request])
  | none => (none, tr ++ [.WithdrawPublishedRouteEntries request])

/-- The handler `resourceAlicloudCenRouteEntryDelete`. -/
def resourceAlicloudCenRouteEntryDelete (k : Consts) (env : Remote) (lim : Limits)
    (d : RouteEntryData) (tr : List Event) : Result RouteEntryData :=
  let cenId := d.instance_id
  let vtbId := d.route_table_id
  let cidr := d.cidr_block
  match env.CreateCenRouteEntryParas tr vtbId with
  | .error err =>
    if NotFoundError err then
      ⟨none, d, tr ++ [.CreateCenRouteEntryParas vtbId]⟩
    else
      ⟨some (.WrapError (.sdk err)), d, tr ++ [.CreateCenRouteEntryParas vtbId]⟩
  | .ok (childInstanceId, childInstanceType) =>
    let request : RouteEntriesRequest :=
      { CenId := cenId
        ChildInstanceId := childInstanceId
        ChildInstanceType := childInstanceType
        ChildInstanceRegionId := env.RegionId
        ChildInstanceRouteTableId := vtbId
        DestinationCidrBlock := cidr }
    match Retry (withdrawAttempt k env request) lim.withdraw
        (tr ++ [.CreateCenRouteEntryParas vtbId]) with
    | (some err, tr2) =>
      if IsExceptedErrors err [k.NotFoundRoute, k.InstanceNotExistMsg] then
        ⟨none, d, tr2⟩
      else
        ⟨some (.WrapErrorf (.sdk err) k.DataDefaultErrorMsg), d, tr2⟩
    | (none, tr2) =>
      ⟨(env.WaitForCenRouterEntry tr2 d.Id k.Deleted).map (fun e => .WrapError (.sdk e)),
        d, tr2 ++ [.WaitForCenRouterEntry d.Id k.Deleted]⟩

/-! ## Managed Kubernetes -/

/-- One element of the `worker_nodes` attribute. -/
structure WorkerNode where
  id : String
  name : String
  private_ip : String
deriving DecidableEq, Repr

/-- The resource data of `alicloud_cs_managed_kubernetes`: the identifier, the
attributes of the schema, the prior values `d.HasChange` and `d.GetChange` compare
with (`old_...`), and the state of `d.Partial` / `d.SetPartial`. -/
structure ClusterData where
  Id : String
  name : String
  name_prefix : String
  availability_zone : String
  vswitch_ids : List String
  new_nat_gateway : Bool
  worker_instance_types : List String
  worker_number : Int
  worker_numbers : List Int
  password : String
  key_name : String
  pod_cidr : String
  service_cidr : String
  cluster_network_type : String
  image_id : String
  worker_disk_size : Int
  worker_disk_category : String
  worker_data_disk_size : Int
  worker_data_disk_category : String
  worker_instance_charge_type : String
  worker_period_unit : String
  worker_period : Int
  worker_auto_renew : Bool
  worker_auto_renew_period : Int
  slb_internet_enabled : Bool
  install_cloud_monitor : Bool
  force_update : Bool
  kube_config : String
  client_cert : String
  client_key : String
  cluster_ca_cert : String
  version : String
  worker_nodes : List WorkerNode
  security_group_id : String
  vpc_id : String
  old_worker_number : Int
  old_worker_numbers : List Int
  old_name : String
  old_name_prefix : String
  Partial : Bool
  SetPartial : List String
deriving DecidableEq, Repr

/-- How a handler that ends in Read can end: it returns, it stops on a run-time
panic (index out of range), or the page budget of the model runs out. -/
inductive Outcome where
  | returned (r : Result ClusterData)
  | panicked (d : ClusterData) (trace : List Event)
  | unfinished (d : ClusterData) (trace : List Event)
deriving DecidableEq, Repr

/-- Arithmetic of Go's `int` (64 bit, two's complement): the value an exact result
wraps to. -/
def wrapInt (x : Int) : Int := (x + 2 ^ 63) % 2 ^ 64 - 2 ^ 63

/-- The constant `ManagedKubernetesCreationDefaultTimeoutInMinute`. -/
def ManagedKubernetesCreationDefaultTimeoutInMinute : Int := 60

/-- Ranging over the keys of a Go map, the runtime choosing the next key:
`keys` are the keys left, `i` the number of keys taken so far. -/
def rangeKeys (pick : Nat → Nat) : Nat → Nat → List String → List String
  | 0, _, _ => []
  | _ + 1, _, [] => []
  | n + 1, i, key :: keys =>
    let j := pick i % (keys.length + 1)
    (key :: keys).getD j key :: rangeKeys pick n (i + 1) ((key :: keys).eraseIdx j)

/-- The function `deduplicateInstanceTypes`: the instance types become the keys of a
map, and the keys of the map are collected in the order the runtime ranges over
them. -/
def deduplicateInstanceTypes (env : Remote) (instanceTypes : List String) : List String :=
  let instanceTypesMaps := instanceTypes.eraseDups
  rangeKeys env.mapPick instanceTypesMaps.length 0 instanceTypesMaps

/-- The loop of `buildManagedKubernetesArgs` over `vswitchIds`, with the variables
`vpcId` and `zoneId` it updates. -/
def describeVSwitches (env : Remote) :
    List String → String → String → List Event → Except Error (String × String) × List Event
  | [], vpcId, zoneId, tr => (.ok (vpcId, zoneId), tr)
  | vswId :: rest, vpcId, zoneId, tr =>
    match env.DescribeVSwitch tr vswId with
    | .error err => (.error (.sdk err), tr ++ [.DescribeVSwitch vswId])
    | .ok vsw =>
      if vpcId = "" then
        describeVSwitches env rest vsw.VpcId vsw.ZoneId (tr ++ [.DescribeVSwitch vswId])
      else if vsw.VpcId ≠ vpcId then
        (.error (.Errorf "all specified vswitch should be in the same vpc %s."),
          tr ++ [.DescribeVSwitch vswId])
      else
        describeVSwitches env rest vpcId zoneId (tr ++ [.DescribeVSwitch vswId])

/-- The block `if v, ok := d.GetOk("worker_data_disk_category"); ok { ... }` of
`buildManagedKubernetesArgs`. -/
def setDataDisk (d : ClusterData) (creationArgs : KubernetesCreationArgs) :
    KubernetesCreationArgs :=
  if d.worker_data_disk_category ≠ "" then
    { creationArgs with
      WorkerDataDiskCategory := d.worker_data_disk_category
      WorkerDataDisk := true
      WorkerDataDiskSize := d.worker_data_disk_size }
  else creationArgs

/-- The block `if v, ok := d.GetOk("worker_instance_charge_type"); ok { ... }` of
`buildManagedKubernetesArgs`. -/
def setChargeType (k : Consts) (d : ClusterData) (creationArgs : KubernetesCreationArgs) :
    KubernetesCreationArgs :=
  if d.worker_instance_charge_type ≠ "" then
    let withCharge :=
      { creationArgs with WorkerInstanceChargeType := d.worker_instance_charge_type }
    if withCharge.WorkerInstanceChargeType = k.PrePaid then
      { withCharge with
        WorkerAutoRenew := d.worker_auto_renew
        WorkerAutoRenewPeriod := d.worker_auto_renew_period
        WorkerPeriod := d.worker_period
        WorkerPeriodUnit := d.worker_period_unit }
    else withCharge
  else creationArgs

/-- The function `buildManagedKubernetesArgs`. -/
def buildManagedKubernetesArgs (k : Consts) (env : Remote) (d : ClusterData)
    (tr : List Event) : Except Error KubernetesCreationArgs × List Event :=
  let rawWorkerInstanceTypes := d.worker_instance_types
  let workerInstanceTypes := deduplicateInstanceTypes env rawWorkerInstanceTypes
  let vswitchIds := d.vswitch_ids
  let workerNumber := d.worker_number
  let clusterName := if d.name ≠ "" then d.name else env.PrefixedUniqueId d.name_prefix
  match describeVSwitches env vswitchIds "" "" tr with
  | (.error err, tr1) => (.error err, tr1)
  | (.ok (vpcId, zoneId), tr1) =>
    let creationArgs : KubernetesCreationArgs :=
      { Name := clusterName
        ClusterType := "ManagedKubernetes"
        DisableRollback := true
        TimeoutMins := ManagedKubernetesCreationDefaultTimeoutInMinute
        RegionId := env.RegionId
        WorkerInstanceTypes := workerInstanceTypes
        VPCID := vpcId
        VSwitchIds := vswitchIds
        LoginPassword := d.password
        KeyPair := d.key_name
        ImageId := d.image_id
        Network := d.cluster_network_type
        NumOfNodes := workerNumber
        WorkerSystemDiskCategory := d.worker_disk_category
        WorkerSystemDiskSize := d.worker_disk_size
        SNatEntry := d.new_nat_gateway
        KubernetesVersion := d.version
        ContainerCIDR := d.pod_cidr
        ServiceCIDR := d.service_cidr
        CloudMonitorFlags := d.install_cloud_monitor
        PublicSLB := d.slb_internet_enabled
        ZoneId := zoneId
        WorkerDataDiskCategory := ""
        WorkerDataDisk := false
        WorkerDataDiskSize := 0
        WorkerInstanceChargeType := ""
        WorkerAutoRenew := false
        WorkerAutoRenewPeriod := 0
        WorkerPeriod := 0
        WorkerPeriodUnit := "" }
    (.ok (setChargeType k d (setDataDisk d creationArgs)), tr1)

/-- The condition `len(result) == 0 || result[0].InstanceId == ""`. -/
def firstNodeMissing (result : List KubernetesNodeType) : Bool :=
  match result with
  | [] => true
  | node :: _ => node.InstanceId == ""

/-- The condition `len(tmp) > 0 && tmp[0].InstanceId != ""`. -/
def firstNodePresent (tmp : List KubernetesNodeType) : Bool :=
  match tmp with
  | [] => false
  | node :: _ => node.InstanceId != ""

/-- The closure retried by `resourceAlicloudCSManagedKubernetesRead` on the first
page; its state is the variable `result` and the event history. -/
def nodesPollAttempt (k : Consts) (env : Remote) (id : String) (cluster : KubernetesCluster)
    (pageNumber : Int) (st : List KubernetesNodeType × List Event) :
    Option (RetryError Error) × (List KubernetesNodeType × List Event) :=
  let tr1 := st.2 ++ [.GetKubernetesClusterNodes id pageNumber k.PageSizeLarge]
  match env.GetKubernetesClusterNodes st.2 id pageNumber k.PageSizeLarge with
  | .error e =>
    (some (.NonRetryableError
      (.ErrorfWith "[ERROR] GetManagedKubernetesClusterNodes got an error: %#v." (.sdk e))),
      (st.1, tr1))
  | .ok (tmp, _) =>
    let result := if firstNodePresent tmp then tmp else st.1
    if cluster.State ∈ k.NodeStableClusterState then
      (none, (result, tr1))
    else
      (some (.RetryableError
        (.Errorf "[ERROR] There is no any nodes in ManagedKubernetes cluster %s.")),
        (result, tr1))

/-- The body of the loop `for _, node := range result`: `none` is the panic of
`node.IpAddress[0]` on a node without address. -/
def mapNodes : List KubernetesNodeType → Option (List WorkerNode)
  | [] => some []
  | node :: rest =>
    match node.IpAddress with
    | [] => none
    | ip :: _ =>
      match mapNodes rest with
      | none => none
      | some ms => some (⟨node.InstanceId, node.InstanceName, ip⟩ :: ms)

/-- How the page loop of Read ends. -/
inductive PagesOutcome where
  | done (workerNodes : List WorkerNode) (trace : List Event)
  | failed (err : Error) (trace : List Event)
  | panicked (trace : List Event)
  | unfinished (trace : List Event)
deriving DecidableEq, Repr

/-- The loop `for { ... }` of Read over the pages of worker nodes, with the
variables `pageNumber` and `workerNodes`; the first argument bounds the number of
pages. -/
def readNodePages (k : Consts) (env : Remote) (lim : Limits) (id : String)
    (cluster : KubernetesCluster) :
    Nat → Int → List WorkerNode → List Event → PagesOutcome
  | 0, _, _, tr => .unfinished tr
  | fuel + 1, pageNumber, workerNodes, tr =>
    let tr1 := tr ++ [.GetKubernetesClusterNodes id pageNumber k.PageSizeLarge]
    match env.GetKubernetesClusterNodes tr id pageNumber k.PageSizeLarge with
    | .error e =>
      .failed
        (.ErrorfWith "[ERROR] GetManagedKubernetesClusterNodes got an error: %#v." (.sdk e)) tr1
    | .ok (result, pageSize) =>
      let polled : Option Error × (List KubernetesNodeType × List Event) :=
        if pageNumber = 1 ∧ firstNodeMissing result = true then
          Retry (nodesPollAttempt k env id cluster pageNumber) lim.nodesPoll (result, tr1)
        else (none, (result, tr1))
      match polled with
      | (some err, (_, tr2)) => .failed err tr2
      | (none, (result2, tr2)) =>
        match mapNodes result2 with
        | none => .panicked tr2
        | some mappings =>
          if (result2.length : Int) < pageSize then
            .done (workerNodes ++ mappings) tr2
          else
            readNodePages k env lim id cluster fuel (pageNumber + 1)
              (workerNodes ++ mappings) tr2

/-- One block `if p, ok := d.GetOk(key); ok && p.(string) != "" { writeToFile(p, data) }`
of Read: the write happens only for a non-empty path. -/
def writeIfSet (env : Remote) (filePath data : String) (tr : List Event) :
    Option Err × List Event :=
  if filePath ≠ "" then
    (env.writeToFile tr filePath data, tr ++ [.writeToFile filePath data])
  else (none, tr)

/-- The closure around `GetClusterCerts` in Read, after the call has succeeded:
the three conditional file writes, the first error ending the closure. -/
def writeCerts (env : Remote) (d : ClusterData) (cert : ClusterCerts) (tr : List Event) :
    Option Err × List Event :=
  match writeIfSet env d.client_cert cert.Cert tr with
  | (some err, tr1) => (some err, tr1)
  | (none, tr1) =>
    match writeIfSet env d.client_key cert.Key tr1 with
    | (some err, tr2) => (some err, tr2)
    | (none, tr2) => writeIfSet env d.cluster_ca_cert cert.CA tr2

/-- The last part of Read (from `GetClusterCerts` on): certificates and kubeconfig. -/
def readCredentials (env : Remote) (d : ClusterData) (tr : List Event) : Result ClusterData :=
  match env.GetClusterCerts tr d.Id with
  | .error err =>
    ⟨some (.ErrorfWith "Get Cluster %s Certs got an error: %#v." (.sdk err)), d,
      tr ++ [.GetClusterCerts d.Id]⟩
  | .ok cert =>
    match writeCerts env d cert (tr ++ [.GetClusterCerts d.Id]) with
    | (some err, tr1) =>
      ⟨some (.ErrorfWith "Get Cluster %s Certs got an error: %#v." (.sdk err)), d, tr1⟩
    | (none, tr1) =>
      if d.kube_config ≠ "" then
        match env.GetClusterConfig tr1 d.Id with
        | .error e =>
          ⟨some (.ErrorfWith "GetClusterConfig got an error: %#v." (.sdk e)), d,
            tr1 ++ [.GetClusterConfig d.Id]⟩
        | .ok config =>
          let tr2 := tr1 ++ [.GetClusterConfig d.Id]
          match env.writeToFile tr2 d.kube_config config with
          | some err => ⟨some (.sdk err), d, tr2 ++ [.writeToFile d.kube_config config]⟩
          | none => ⟨none, d, tr2 ++ [.writeToFile d.kube_config config]⟩
      else ⟨none, d, tr1⟩

/-- The handler `resourceAlicloudCSManagedKubernetesRead`. -/
def resourceAlicloudCSManagedKubernetesRead (k : Consts) (env : Remote) (lim : Limits)
    (d : ClusterData) (tr : List Event) : Outcome :=
  match env.DescribeKubernetesCluster tr d.Id with
  | .error err =>
    if NotFoundError err || IsExceptedError err k.ErrorClusterNotFound then
      .returned ⟨none, { d with Id := "" }, tr ++ [.DescribeKubernetesCluster d.Id, .SetId ""]⟩
    else
      .returned ⟨some (.ErrorfWith
        "Describing kubernetes cluster %#v failed, error message: %#v. Please check cluster in the console,"
        (.sdk err)), d, tr ++ [.DescribeKubernetesCluster d.Id]⟩
  | .ok cluster =>
    let d1 :=
      { d with
        name := cluster.Name
        vpc_id := cluster.VPCID
        security_group_id := cluster.SecurityGroupID
        availability_zone := cluster.ZoneId }
    match readNodePages k env lim d1.Id cluster lim.pages 1 []
        (tr ++ [.DescribeKubernetesCluster d.Id]) with
    | .failed err tr1 => .returned ⟨some err, d1, tr1⟩
    | .panicked tr1 => .panicked d1 tr1
    | .unfinished tr1 => .unfinished d1 tr1
    | .done workerNodes tr1 =>
      .returned (readCredentials env { d1 with worker_nodes := workerNodes } tr1)

/-- The handler `resourceAlicloudCSManagedKubernetesCreate`. -/
def resourceAlicloudCSManagedKubernetesCreate (k : Consts) (env : Remote) (lim : Limits)
    (d : ClusterData) (tr : List Event) : Outcome :=
  match buildManagedKubernetesArgs k env d tr with
  | (.error err, tr1) => .returned ⟨some err, d, tr1⟩
  | (.ok args, tr1) =>
    match env.CreateKubernetesCluster tr1 args with
    | .error err =>
      .returned ⟨some (.ErrorfWith "Creating ManagedKubernetes Cluster got an error: %#v"
        (.sdk err)), d, tr1 ++ [.CreateKubernetesCluster args]⟩
    | .ok clusterID =>
      let d1 := { d with Id := clusterID }
      let tr2 := tr1 ++ [.CreateKubernetesCluster args, .SetId clusterID]
      match env.WaitForClusterAsyn tr2 d1.Id k.Running with
      | some err =>
        .returned ⟨some (.ErrorfWith
          "Waitting for ManagedKubernetes cluster %#v got an error: %#v" (.sdk err)), d1,
          tr2 ++ [.WaitForClusterAsyn d1.Id k.Running]⟩
      | none =>
        resourceAlicloudCSManagedKubernetesRead k env lim d1
          (tr2 ++ [.WaitForClusterAsyn d1.Id k.Running])

/-- The variable `scaleSize` of Update. -/
def scaleSize (d : ClusterData) : Int :=
  if d.old_worker_number ≠ d.worker_number then
    let oldNumber := d.old_worker_number
    let newNumber := d.worker_number
    wrapInt (newNumber - oldNumber)
  else
    let oSum := d.old_worker_numbers.foldl (fun s v => wrapInt (s + v)) 0
    let nSum := d.worker_numbers.foldl (fun s v => wrapInt (s + v)) 0
    wrapInt (nSum - oSum)

/-- The second block of Update (`name` / `name_prefix`) and what follows it. -/
def updateName (k : Consts) (env : Remote) (lim : Limits) (d : ClusterData)
    (tr : List Event) : Outcome :=
  if d.old_name ≠ d.name ∨ d.old_name_prefix ≠ d.name_prefix then
    let clusterName := if d.name ≠ "" then d.name else env.PrefixedUniqueId d.name_prefix
    let tr1 := tr ++ [.ModifyClusterName d.Id clusterName]
    match env.ModifyClusterName tr d.Id clusterName with
    | some err =>
      if !IsExceptedError err k.ErrorClusterNameAlreadyExist then
        .returned ⟨some (.ErrorfWith "Modify Cluster Name got an error: %#v" (.sdk err)), d, tr1⟩
      else
        resourceAlicloudCSManagedKubernetesRead k env lim
          { d with SetPartial := d.SetPartial ++ ["name", "name_prefix"], Partial := false } tr1
    | none =>
      resourceAlicloudCSManagedKubernetesRead k env lim
        { d with SetPartial := d.SetPartial ++ ["name", "name_prefix"], Partial := false } tr1
  else
    resourceAlicloudCSManagedKubernetesRead k env lim { d with Partial := false } tr

/-- The handler `resourceAlicloudCSManagedKubernetesUpdate`. -/
def resourceAlicloudCSManagedKubernetesUpdate (k : Consts) (env : Remote) (lim : Limits)
    (d0 : ClusterData) (tr : List Event) : Outcome :=
  let d := { d0 with Partial := true }
  if d.old_worker_number ≠ d.worker_number ∨ d.old_worker_numbers ≠ d.worker_numbers then
    if scaleSize d < 0 then
      .returned ⟨some (.Errorf "cannot scale down cluster"), d, tr⟩
    else
      let workerInstanceTypes := deduplicateInstanceTypes env d.worker_instance_types
      let args : KubernetesClusterScaleArgs :=
        { LoginPassword := d.password
          KeyPair := d.key_name
          WorkerInstanceTypes := workerInstanceTypes
          WorkerSystemDiskCategory := d.worker_disk_category
          WorkerSystemDiskSize := d.worker_disk_size
          Count := scaleSize d
          WorkerDataDisk := if d.worker_data_disk_category ≠ "" then true else false }
      match env.ScaleKubernetesCluster tr d.Id args with
      | some err =>
        .returned ⟨some (.ErrorfWith "Scale Cluster got an error: %#v" (.sdk err)), d,
          tr ++ [.ScaleKubernetesCluster d.Id args]⟩
      | none =>
        let tr1 := tr ++ [.ScaleKubernetesCluster d.Id args]
        match env.WaitForClusterAsyn tr1 d.Id k.Running with
        | some err =>
          .returned ⟨some (.ErrorfWith
            "Waitting for container Cluster %#v got an error: %#v" (.sdk err)), d,
            tr1 ++ [.WaitForClusterAsyn d.Id k.Running]⟩
        | none =>
          updateName k env lim { d with SetPartial := d.SetPartial ++ ["worker_number"] }
            (tr1 ++ [.WaitForClusterAsyn d.Id k.Running])
  else
    updateName k env lim d tr

/-- The closure retried by `resourceAlicloudCSManagedKubernetesDelete`. -/
def deleteClusterAttempt (k : Consts) (env : Remote) (id : String) (tr : List Event) :
    Option (RetryError Error) × List Event :=
  let tr1 := tr ++ [.DeleteCluster id]
  match env.DeleteCluster tr id with
  | some err =>
    if NotFoundError err || IsExceptedError err k.ErrorClusterNotFound then
      (none, tr1)
    else
      (some (.RetryableError (.ErrorfWith
        "Delete ManagedKubernetes Cluster timeout and get an error: %#v." (.sdk err))), tr1)
  | none =>
    let tr2 := tr1 ++ [.DescribeCluster id]
    match env.DescribeCluster tr1 id with
    | .error err =>
      if NotFoundError err || IsExceptedError err k.ErrorClusterNotFound then
        (none, tr2)
      else
        (some (.NonRetryableError (.ErrorfWith
          "Describing ManagedKubernetes Cluster got an error: %#v" (.sdk err))), tr2)
    | .ok cluster =>
      if cluster.ClusterID = "" then
        (none, tr2)
      else
        (some (.RetryableError (.Errorf "Delete ManagedKubernetes Cluster timeout.")), tr2)

/-- The handler `resourceAlicloudCSManagedKubernetesDelete`. -/
def resourceAlicloudCSManagedKubernetesDelete (k : Consts) (env : Remote) (lim : Limits)
    (d : ClusterData) (tr : List Event) : Result ClusterData :=
  match Retry (deleteClusterAttempt k env d.Id) lim.deleteCluster tr with
  | (err, tr1) => ⟨err, d, tr1⟩

/-! ## Sample constants and remote systems for the concrete checks -/

/-- A choice of the named constants. -/
def sampleConsts : Consts :=
  { OperationBlocking := "Operation.Blocking"
    InvalidStateForOperationMsg := "InvalidStateForOperation"
    InvalidCenInstanceStatus := "InvalidOperation.CenInstanceStatus"
    InternalError := "InternalError"
    NotFoundRoute := "InvalidOperation.NotFoundRoute"
    InstanceNotExistMsg := "InstanceNotExist"
    ErrorClusterNotFound := "ErrorClusterNotFound"
    ErrorClusterNameAlreadyExist := "ErrorClusterNameAlreadyExist"
    NOPUBLISHED := "unpublished"
    PUBLISHED := "published"
    Deleted := "deleted"
    Deleting := "deleting"
    PrePaid := "PrePaid"
    Running := "running"
    NodeStableClusterState := ["running", "failed"]
    PageSizeLarge := 50
    DefaultErrorMsg := "Resource %s %s Failed!!! %s"
    DataDefaultErrorMsg := "Datasource %s %s Failed!!! %s" }

/-- A remote system in which every operation succeeds with empty answers. -/
def quietRemote : Remote :=
  { RegionId := "cn-hangzhou"
    CreateCenRouteEntryParas := fun _ _ => .ok ("vpc-1", "VPC")
    PublishRouteEntries := fun _ _ => none
    WithdrawPublishedRouteEntries := fun _ _ => none
    WaitForCenRouterEntry := fun _ _ _ => none
    DescribeCenRouteEntry := fun _ _ => .ok ⟨"published", "vtb-1", "10.0.0.0/16"⟩
    DescribeVSwitch := fun _ _ => .ok ⟨"vpc-1", "zone-a"⟩
    CreateKubernetesCluster := fun _ _ => .ok "c-1"
    WaitForClusterAsyn := fun _ _ _ => none
    ScaleKubernetesCluster := fun _ _ _ => none
    ModifyClusterName := fun _ _ _ => none
    DescribeKubernetesCluster := fun _ _ => .ok ⟨"k8s", "vpc-1", "sg-1", "zone-a", "running"⟩
    GetKubernetesClusterNodes := fun _ _ _ _ => .ok ([], 50)
    GetClusterCerts := fun _ _ => .ok ⟨"ca", "key", "cert"⟩
    GetClusterConfig := fun _ _ => .ok "config"
    DeleteCluster := fun _ _ => none
    DescribeCluster := fun _ _ => .ok ⟨"", "deleted"⟩
    writeToFile := fun _ _ _ => none
    PrefixedUniqueId := fun p => p ++ "0001"
    mapPick := fun _ => 0 }

/-- Limits used in the concrete checks. -/
def sampleLimits : Limits := ⟨3, 3, 3, 3, 4⟩

/-- The route entry of the spec's round-trip example, before creation. -/
def sampleRoute : RouteEntryData := ⟨"", "cen-1", "vtb-1", "10.0.0.0/16"⟩

/-- The trace a handler that ends in Read leaves behind, however it ends. -/
def Outcome.trace : Outcome → List Event
  | .returned r => r.trace
  | .panicked _ tr => tr
  | .unfinished _ tr => tr

/-- The resource data a handler that ends in Read leaves behind, however it ends. -/
def Outcome.d : Outcome → ClusterData
  | .returned r => r.d
  | .panicked d _ => d
  | .unfinished d _ => d

/-- A cluster configuration for the concrete checks: one subnet, three workers,
no credential path. -/
def sampleCluster : ClusterData :=
  { Id := "c-1"
    name := "k8s"
    name_prefix := "Terraform-Creation"
    availability_zone := ""
    vswitch_ids := ["vsw-a", "vsw-b"]
    new_nat_gateway := true
    worker_instance_types := ["ecs.n4.large"]
    worker_number := 3
    worker_numbers := [3]
    password := ""
    key_name := "key"
    pod_cidr := "172.20.0.0/16"
    service_cidr := "172.21.0.0/20"
    cluster_network_type := "flannel"
    image_id := ""
    worker_disk_size := 40
    worker_disk_category := "cloud_efficiency"
    worker_data_disk_size := 40
    worker_data_disk_category := ""
    worker_instance_charge_type := "PostPaid"
    worker_period_unit := "Month"
    worker_period := 1
    worker_auto_renew := true
    worker_auto_renew_period := 1
    slb_internet_enabled := false
    install_cloud_monitor := false
    force_update := false
    kube_config := ""
    client_cert := ""
    client_key := ""
    cluster_ca_cert := ""
    version := ""
    worker_nodes := []
    security_group_id := ""
    vpc_id := ""
    old_worker_number := 3
    old_worker_numbers := [3]
    old_name := "k8s"
    old_name_prefix := "Terraform-Creation"
    Partial := false
    SetPartial := [] }

/-- A remote system whose two subnets lie in two different networks. -/
def mixedRemote : Remote :=
  { quietRemote with
    DescribeVSwitch := fun _ id =>
      if id = "vsw-a" then .ok ⟨"vpc-1", "zone-a"⟩ else .ok ⟨"vpc-2", "zone-b"⟩ }

/-- A remote system that describes the first subnet with an empty network ID and
the second one in network `vpc-2`. -/
def blankFirstRemote : Remote :=
  { quietRemote with
    DescribeVSwitch := fun _ id =>
      if id = "vsw-a" then .ok ⟨"", "zone-a"⟩ else .ok ⟨"vpc-2", "zone-b"⟩ }

/-- A remote system that describes both subnets with an empty network ID, in
two zones. -/
def blankNetRemote : Remote :=
  { quietRemote with
    DescribeVSwitch := fun _ id =>
      if id = "vsw-a" then .ok ⟨"", "zone-a"⟩ else .ok ⟨"", "zone-b"⟩ }

/-- A remote system on which the route entry is described as unpublished. -/
def unpublishedRemote : Remote :=
  { quietRemote with
    DescribeCenRouteEntry := fun _ _ => .ok ⟨"unpublished", "vtb-1", "10.0.0.0/16"⟩ }

/-- A remote system on which every withdraw call reports that the route is not
found. -/
def routeGoneRemote : Remote :=
  { quietRemote with
    WithdrawPublishedRouteEntries := fun _ _ => some ⟨"InvalidOperation.NotFoundRoute", false⟩ }

/-- The route entry of the spec's round-trip example, after creation. -/
def createdRoute : RouteEntryData :=
  ⟨"cen-1:vtb-1:10.0.0.0/16", "cen-1", "vtb-1", "10.0.0.0/16"⟩

/-- A remote system on which every delete-cluster call fails with the error code
`Forbidden`, which is on no allow-list and is not a not-found error. -/
def forbiddenRemote : Remote :=
  { quietRemote with DeleteCluster := fun _ _ => some ⟨"Forbidden", false⟩ }

/-- A remote system whose first page of nodes is empty when it is first fetched
and holds one node without instance ID from the second fetch on. -/
def lateNodesRemote : Remote :=
  { quietRemote with
    GetKubernetesClusterNodes := fun h _ _ _ =>
      if h.length ≤ 1 then .ok ([], 50) else .ok ([⟨"", "node-1", ["10.0.0.1"]⟩], 50) }

/-- A remote system whose first page of nodes is empty when it is first fetched
and whose later fetches fail. -/
def failingNodesRemote : Remote :=
  { quietRemote with
    GetKubernetesClusterNodes := fun h _ _ _ =>
      if h.length ≤ 1 then .ok ([], 50) else .error ⟨"InternalError", false⟩ }

/-- A remote system whose cluster is still being created and has no node yet. -/
def initialRemote : Remote :=
  { quietRemote with
    DescribeKubernetesCluster := fun _ _ => .ok ⟨"k8s", "vpc-1", "sg-1", "zone-a", "initial"⟩ }

/-- What Read returns for the sample cluster on `initialRemote`: the error of the
poll after five fetches of the first page (one before the poll and four in it). -/
def initialReadResult : Result ClusterData :=
  ⟨some (.Errorf "[ERROR] There is no any nodes in ManagedKubernetes cluster %s."),
    { sampleCluster with
      name := "k8s", vpc_id := "vpc-1", security_group_id := "sg-1",
      availability_zone := "zone-a" },
    [.DescribeKubernetesCluster "c-1", .GetKubernetesClusterNodes "c-1" 1 50,
      .GetKubernetesClusterNodes "c-1" 1 50, .GetKubernetesClusterNodes "c-1" 1 50,
      .GetKubernetesClusterNodes "c-1" 1 50, .GetKubernetesClusterNodes "c-1" 1 50]⟩

/-- The event history of the page loop, however it ends. -/
def PagesOutcome.trace : PagesOutcome → List Event
  | .done _ tr => tr
  | .failed _ tr => tr
  | .panicked tr => tr
  | .unfinished tr => tr

/-- The events a managed-cluster Read may add to the history for the resource data
`d`: its read calls and `SetId`, the get-cluster-config call if `kube_config` is
set, and file writes to a non-empty path configured in `d`. -/
def readEvent (d : ClusterData) : Event → Prop
  | .DescribeKubernetesCluster _ => True
  | .GetKubernetesClusterNodes _ _ _ => True
  | .GetClusterCerts _ => True
  | .SetId _ => True
  | .GetClusterConfig _ => d.kube_config ≠ ""
  | .writeToFile p _ =>
    p ≠ "" ∧ (p = d.client_cert ∨ p = d.client_key ∨ p = d.cluster_ca_cert ∨ p = d.kube_config)
  | _ => False

/-! ## Definitions used to state the later properties -/

/-- The remote system reports the cluster `id` absent to an attempt that starts
at the history `h`: the delete-cluster call reports not-found, or it succeeds and
the describe call that follows reports not-found or returns a cluster with an
empty cluster ID. -/
def reportedAbsent (k : Consts) (env : Remote) (id : String) (h : List Event) : Prop :=
  (∃ e, env.DeleteCluster h id = some e ∧
      (NotFoundError e || IsExceptedError e k.ErrorClusterNotFound) = true) ∨
    (env.DeleteCluster h id = none ∧
      ((∃ e, env.DescribeCluster (h ++ [.DeleteCluster id]) id = .error e ∧
          (NotFoundError e || IsExceptedError e k.ErrorClusterNotFound) = true) ∨
        (∃ cluster, env.DescribeCluster (h ++ [.DeleteCluster id]) id = .ok cluster ∧
          cluster.ClusterID = "")))

/-- An exact integer value lies in the range of Go's 64-bit `int`. -/
def fitsInt (x : Int) : Prop := -(2 : Int) ^ 63 ≤ x ∧ x < (2 : Int) ^ 63

/-! ## The scale delta of Update -/

instance (x : Int) : Decidable (fitsInt x) := by
  unfold fitsInt
  exact instDecidableAnd

/-- A cluster configuration whose new `worker_number` is the least 64-bit
integer, the old one being three. -/
def underflowCluster : ClusterData :=
  { sampleCluster with worker_number := -9223372036854775808 }

/-- One round of the page loop of Read up to the mapping of the nodes: the fetch
of page `pageNumber` and, on the first page, the poll; it yields the page the loop
then holds in `result` and the page size of the pagination. -/
def fetchPage (k : Consts) (env : Remote) (lim : Limits) (id : String)
    (cluster : KubernetesCluster) (pageNumber : Int) (tr : List Event) :
    Except Error (List KubernetesNodeType × Int) × List Event :=
  let tr1 := tr ++ [.GetKubernetesClusterNodes id pageNumber k.PageSizeLarge]
  match env.GetKubernetesClusterNodes tr id pageNumber k.PageSizeLarge with
  | .error e =>
    (.error
      (.ErrorfWith "[ERROR] GetManagedKubernetesClusterNodes got an error: %#v." (.sdk e)), tr1)
  | .ok (result, pageSize) =>
    if pageNumber = 1 ∧ firstNodeMissing result = true then
      match Retry (nodesPollAttempt k env id cluster pageNumber) lim.nodesPoll (result, tr1) with
      | (some err, (_, tr2)) => (.error err, tr2)
      | (none, (result2, tr2)) => (.ok (result2, pageSize), tr2)
    else (.ok (result, pageSize), tr1)

/-- The element of `worker_nodes` a node is mapped to: its instance ID, its
instance name and its first IP address. -/
def nodeMapping (node : KubernetesNodeType) : WorkerNode :=
  ⟨node.InstanceId, node.InstanceName, node.IpAddress.headD ""⟩

/-- The pages fetched from page number `pageNumber` on, starting at the history
`tr`: page numbers go up by one, every page but the last holds at least as many
nodes as the page size, and the last page, after which fetching stops at the
history `tr1`, holds fewer. -/
inductive FetchedPages (k : Consts) (env : Remote) (lim : Limits) (id : String)
    (cluster : KubernetesCluster) :
    Int → List Event → List (List KubernetesNodeType) → List Event → Prop where
  | last (pageNumber : Int) (tr tr1 : List Event) (result : List KubernetesNodeType)
      (pageSize : Int)
      (hfetch : fetchPage k env lim id cluster pageNumber tr = (.ok (result, pageSize), tr1))
      (hshort : (result.length : Int) < pageSize) :
      FetchedPages k env lim id cluster pageNumber tr [result] tr1
  | next (pageNumber : Int) (tr tr1 tr2 : List Event) (result : List KubernetesNodeType)
      (pageSize : Int) (pages : List (List KubernetesNodeType))
      (hfetch : fetchPage k env lim id cluster pageNumber tr = (.ok (result, pageSize), tr1))
      (hfull : ¬ (result.length : Int) < pageSize)
      (hrest : FetchedPages k env lim id cluster (pageNumber + 1) tr1 pages tr2) :
      FetchedPages k env lim id cluster pageNumber tr (result :: pages) tr2

/-- A remote system with three worker nodes on two pages of size two. -/
def twoPagesRemote : Remote :=
  { quietRemote with
    GetKubernetesClusterNodes := fun _ _ pageNumber _ =>
      if pageNumber = 1 then
        .ok ([⟨"i-1", "node-1", ["10.0.0.1", "10.0.1.1"]⟩, ⟨"i-2", "node-2", ["10.0.0.2"]⟩], 2)
      else .ok ([⟨"i-3", "node-3", ["10.0.0.3"]⟩], 2) }

/-- A remote system whose only worker node has no IP address. -/
def noAddressRemote : Remote :=
  { quietRemote with
    GetKubernetesClusterNodes := fun _ _ _ _ => .ok ([⟨"i-1", "node-1", []⟩], 50) }

/-! ## Bounded retry: general facts -/

theorem Retry_of_nil {σ ε : Type} (f : σ → Option (RetryError ε) × σ) (n : Nat) (s s1 : σ)
    (h : f s = (none, s1)) : Retry f n s = (none, s1) := by
  cases n <;> simp [Retry, h]

theorem Retry_of_nonRetryable {σ ε : Type} (f : σ → Option (RetryError ε) × σ) (n : Nat)
    (s s1 : σ) (e : ε) (h : f s = (some (.NonRetryableError e), s1)) :
    Retry f n s = (some e, s1) := by
  cases n <;> simp [Retry, h]

theorem Retry_of_retryable {σ ε : Type} (f : σ → Option (RetryError ε) × σ) (n : Nat)
    (s s1 : σ) (e : ε) (h : f s = (some (.RetryableError e), s1)) :
    Retry f (n + 1) s = Retry f n s1 := by
  simp [Retry, h]

/-! ## Scaling down is rejected -/

/-- C1: whenever `worker_number` or `worker_numbers` has changed and the computed
scale delta is negative, Update returns the error "cannot scale down cluster" and
the event history is exactly the one it was handed: no scale call, no wait, no
rename and no read-back, whatever the other attributes (the name included) are. -/
theorem update_negative_delta_rejected (k : Consts) (env : Remote) (lim : Limits)
    (d : ClusterData) (tr : List Event)
    (hchange : d.old_worker_number ≠ d.worker_number ∨ d.old_worker_numbers ≠ d.worker_numbers)
    (hneg : scaleSize d < 0) :
    resourceAlicloudCSManagedKubernetesUpdate k env lim d tr =
      .returned ⟨some (.Errorf "cannot scale down cluster"), { d with Partial := true }, tr⟩ := by
  have hs : scaleSize { d with Partial := true } = scaleSize d := by simp [scaleSize]
  unfold resourceAlicloudCSManagedKubernetesUpdate
  simp only [hs]
  rw [if_pos hchange, if_pos hneg]

/-- Witness of C1: three workers scaled to one while the name changes as well. -/
theorem update_negative_delta_rejected_witness :
    ((3 : Int) ≠ 1 ∨ [(3 : Int)] ≠ [3]) ∧
    scaleSize { sampleCluster with worker_number := 1, name := "renamed" } < 0 ∧
    resourceAlicloudCSManagedKubernetesUpdate sampleConsts quietRemote sampleLimits
        { sampleCluster with worker_number := 1, name := "renamed" } [] =
      .returned ⟨some (.Errorf "cannot scale down cluster"),
        { sampleCluster with worker_number := 1, name := "renamed", Partial := true }, []⟩ :=
  ⟨by decide, by decide,
    update_negative_delta_rejected sampleConsts quietRemote sampleLimits
      { sampleCluster with worker_number := 1, name := "renamed" } []
      (by decide) (by decide)⟩

/-! ## Subnets and networks in the argument builder -/

/-- Once `vpcId` is set, subnets that all report it leave `vpcId` and `zoneId` as
they are, and every subnet is described. -/
theorem describeVSwitches_same (env : Remote) (net : String → VSwitch) (ids : List String)
    (vpcId zoneId : String) (tr : List Event)
    (hdesc : ∀ h, ∀ id ∈ ids, env.DescribeVSwitch h id = .ok (net id))
    (hv : vpcId ≠ "") (hsame : ∀ id ∈ ids, (net id).VpcId = vpcId) :
    describeVSwitches env ids vpcId zoneId tr =
      (.ok (vpcId, zoneId), tr ++ ids.map Event.DescribeVSwitch) := by
  induction ids generalizing tr with
  | nil => simp [describeVSwitches]
  | cons a rest ih =>
    have ha := hdesc tr a (List.mem_cons_self a rest)
    have hsa := hsame a (List.mem_cons_self a rest)
    have ih1 := ih (tr ++ [Event.DescribeVSwitch a])
      (fun h id hid => hdesc h id (List.mem_cons_of_mem a hid))
      (fun id hid => hsame id (List.mem_cons_of_mem a hid))
    simp [describeVSwitches, ha, hv, hsa, ih1]

/-- Once `vpcId` is set, a subnet that reports another network ends the loop with
the error, after describe calls only. -/
theorem describeVSwitches_mixed (env : Remote) (net : String → VSwitch) (ids : List String)
    (vpcId zoneId : String) (tr : List Event)
    (hdesc : ∀ h, ∀ id ∈ ids, env.DescribeVSwitch h id = .ok (net id))
    (hv : vpcId ≠ "") (hmixed : ∃ id ∈ ids, (net id).VpcId ≠ vpcId) :
    ∃ n, n ≤ ids.length ∧
      describeVSwitches env ids vpcId zoneId tr =
        (.error (.Errorf "all specified vswitch should be in the same vpc %s."),
          tr ++ (ids.take n).map Event.DescribeVSwitch) := by
  induction ids generalizing tr with
  | nil => obtain ⟨id, hid, _⟩ := hmixed; simp at hid
  | cons a rest ih =>
    have ha := hdesc tr a (List.mem_cons_self a rest)
    by_cases hsa : (net a).VpcId = vpcId
    · have hrest : ∃ id ∈ rest, (net id).VpcId ≠ vpcId := by
        obtain ⟨id, hid, hne⟩ := hmixed
        rcases List.mem_cons.mp hid with h | h
        · subst h; exact absurd hsa hne
        · exact ⟨id, h, hne⟩
      obtain ⟨n, hn, hrun⟩ := ih (tr ++ [Event.DescribeVSwitch a])
        (fun h id hid => hdesc h id (List.mem_cons_of_mem a hid)) hrest
      refine ⟨n + 1, by simpa using hn, ?_⟩
      simp [describeVSwitches, ha, hv, hsa, hrun]
    · refine ⟨1, by simp, ?_⟩
      simp [describeVSwitches, ha, hv, hsa]

/-- C2, as the code has it: when every subnet of the list is described with a
non-empty network ID and two of them report different networks,
`buildManagedKubernetesArgs` returns the error "all specified vswitch should be in
the same vpc" after `DescribeVSwitch` calls only (on a prefix of the list), and
Create returns that error with the resource data unchanged (no identifier set) and
the same history: no create-cluster call is issued. -/
theorem build_mixed_network_rejected (k : Consts) (env : Remote) (lim : Limits)
    (d : ClusterData) (tr : List Event) (net : String → VSwitch)
    (hdesc : ∀ h, ∀ id ∈ d.vswitch_ids, env.DescribeVSwitch h id = .ok (net id))
    (hne : ∀ id ∈ d.vswitch_ids, (net id).VpcId ≠ "")
    (hmixed : ∃ a ∈ d.vswitch_ids, ∃ b ∈ d.vswitch_ids, (net a).VpcId ≠ (net b).VpcId) :
    ∃ n, n ≤ d.vswitch_ids.length ∧
      buildManagedKubernetesArgs k env d tr =
        (.error (.Errorf "all specified vswitch should be in the same vpc %s."),
          tr ++ (d.vswitch_ids.take n).map Event.DescribeVSwitch) ∧
      resourceAlicloudCSManagedKubernetesCreate k env lim d tr =
        .returned ⟨some (.Errorf "all specified vswitch should be in the same vpc %s."), d,
          tr ++ (d.vswitch_ids.take n).map Event.DescribeVSwitch⟩ := by
  cases hids : d.vswitch_ids with
  | nil => rw [hids] at hmixed; obtain ⟨a, ha, _⟩ := hmixed; simp at ha
  | cons a0 rest =>
    rw [hids] at hdesc hne hmixed
    have h0 := hdesc tr a0 (List.mem_cons_self a0 rest)
    have hv0 := hne a0 (List.mem_cons_self a0 rest)
    have hrest : ∃ id ∈ rest, (net id).VpcId ≠ (net a0).VpcId := by
      obtain ⟨a, ha, b, hb, hab⟩ := hmixed
      by_cases haa : (net a).VpcId = (net a0).VpcId
      · have hbb : (net b).VpcId ≠ (net a0).VpcId := fun h => hab (haa.trans h.symm)
        rcases List.mem_cons.mp hb with h | h
        · subst h; exact absurd rfl hbb
        · exact ⟨b, h, hbb⟩
      · rcases List.mem_cons.mp ha with h | h
        · subst h; exact absurd rfl haa
        · exact ⟨a, h, haa⟩
    obtain ⟨n, hn, hrun⟩ := describeVSwitches_mixed env net rest (net a0).VpcId (net a0).ZoneId
      (tr ++ [Event.DescribeVSwitch a0])
      (fun h id hid => hdesc h id (List.mem_cons_of_mem a0 hid)) hv0 hrest
    have hbuild : buildManagedKubernetesArgs k env d tr =
        (.error (.Errorf "all specified vswitch should be in the same vpc %s."),
          tr ++ ((a0 :: rest).take (n + 1)).map Event.DescribeVSwitch) := by
      simp [buildManagedKubernetesArgs, hids, describeVSwitches, h0, hrun]
    refine ⟨n + 1, by simpa using hn, hbuild, ?_⟩
    simp only [resourceAlicloudCSManagedKubernetesCreate, hbuild]

/-- Witness of C2: two subnets in the networks `vpc-1` and `vpc-2`. -/
theorem build_mixed_network_rejected_witness :
    ∃ n, n ≤ sampleCluster.vswitch_ids.length ∧
      buildManagedKubernetesArgs sampleConsts mixedRemote sampleCluster [] =
        (.error (.Errorf "all specified vswitch should be in the same vpc %s."),
          [] ++ (sampleCluster.vswitch_ids.take n).map Event.DescribeVSwitch) ∧
      resourceAlicloudCSManagedKubernetesCreate sampleConsts mixedRemote sampleLimits
          sampleCluster [] =
        .returned ⟨some (.Errorf "all specified vswitch should be in the same vpc %s."),
          sampleCluster, [] ++ (sampleCluster.vswitch_ids.take n).map Event.DescribeVSwitch⟩ :=
  build_mixed_network_rejected sampleConsts mixedRemote sampleLimits sampleCluster []
    (fun id => if id = "vsw-a" then ⟨"vpc-1", "zone-a"⟩ else ⟨"vpc-2", "zone-b"⟩)
    (by intro h id _; simp only [mixedRemote]; split <;> rfl)
    (by intro id _; by_cases h : id = "vsw-a" <;> simp [h])
    ⟨"vsw-a", by decide, "vsw-b", by decide, by decide⟩

/-- C2, as stated, fails: for the two subnets `vsw-a` (network `vpc-1`) and `vsw-b`
(network `vpc-2`) the builder does return the error, but only after two remote
describe calls; and for `vsw-a` described with an empty network ID and `vsw-b` in
`vpc-2` the builder returns no error at all and takes network and zone from the
second subnet. -/
theorem build_mixed_network_counterexample :
    buildManagedKubernetesArgs sampleConsts mixedRemote sampleCluster [] =
        (.error (.Errorf "all specified vswitch should be in the same vpc %s."),
          [.DescribeVSwitch "vsw-a", .DescribeVSwitch "vsw-b"]) ∧
      Event.isRemote (.DescribeVSwitch "vsw-a") = true ∧
      ((buildManagedKubernetesArgs sampleConsts blankFirstRemote sampleCluster []).1.toOption.map
        (fun args => (args.VPCID, args.ZoneId))) = some ("vpc-2", "zone-b") := by
  refine ⟨?_, ?_, ?_⟩ <;> rfl

/-- Where the builder does resolve network and zone from the first subnet: when
the list of subnet IDs is `first :: rest`, every subnet is described, the first one
reports a non-empty network ID and all the others report the same one,
`buildManagedKubernetesArgs` succeeds after describing every subnet in order, and
the request's `VPCID` and `ZoneId` are the network ID and the zone ID of the first
subnet. -/
theorem build_single_network (k : Consts) (env : Remote) (d : ClusterData)
    (tr : List Event) (net : String → VSwitch) (first : String) (rest : List String)
    (hids : d.vswitch_ids = first :: rest)
    (hdesc : ∀ h, ∀ id ∈ d.vswitch_ids, env.DescribeVSwitch h id = .ok (net id))
    (hne : (net first).VpcId ≠ "")
    (hsame : ∀ id ∈ rest, (net id).VpcId = (net first).VpcId) :
    ∃ args,
      buildManagedKubernetesArgs k env d tr =
        (.ok args, tr ++ d.vswitch_ids.map Event.DescribeVSwitch) ∧
      args.VPCID = (net first).VpcId ∧ args.ZoneId = (net first).ZoneId := by
  rw [hids] at hdesc
  have h0 := hdesc tr first (List.mem_cons_self first rest)
  have hrun := describeVSwitches_same env net rest (net first).VpcId (net first).ZoneId
    (tr ++ [Event.DescribeVSwitch first])
    (fun h id hid => hdesc h id (List.mem_cons_of_mem first hid)) hne hsame
  have hrun1 : describeVSwitches env (first :: rest) "" "" tr =
      (.ok ((net first).VpcId, (net first).ZoneId),
        tr ++ (first :: rest).map Event.DescribeVSwitch) := by
    simp [describeVSwitches, h0, hrun]
  have hkeep : ∀ a : KubernetesCreationArgs,
      (setChargeType k d (setDataDisk d a)).VPCID = a.VPCID ∧
      (setChargeType k d (setDataDisk d a)).ZoneId = a.ZoneId := by
    intro a
    unfold setChargeType setDataDisk
    dsimp only
    split_ifs <;> exact ⟨rfl, rfl⟩
  simp only [buildManagedKubernetesArgs, hids, hrun1]
  exact ⟨_, rfl, (hkeep _).1, (hkeep _).2⟩

/-- The subnets `vsw-a` and `vsw-b`, both in `vpc-1`, are resolved from the first
one. -/
theorem build_single_network_witness :
    ∃ args,
      buildManagedKubernetesArgs sampleConsts quietRemote sampleCluster [] =
        (.ok args, [] ++ sampleCluster.vswitch_ids.map Event.DescribeVSwitch) ∧
      args.VPCID = (VSwitch.mk "vpc-1" "zone-a").VpcId ∧
      args.ZoneId = (VSwitch.mk "vpc-1" "zone-a").ZoneId :=
  build_single_network sampleConsts quietRemote sampleCluster []
    (fun _ => ⟨"vpc-1", "zone-a"⟩) "vsw-a" ["vsw-b"] rfl
    (by intro h id _; rfl) (by decide) (by intro id _; rfl)

/-- C3 at the failing input: the subnets `vsw-a` (zone `zone-a`) and `vsw-b` (zone
`zone-b`) are both described with the same network ID, the empty one. The loop of
`buildManagedKubernetesArgs` takes `vpcId == ""` for "not set yet", so the second
subnet overwrites `vpcId` and `zoneId` again: the builder succeeds, and the
request's `ZoneId` is `zone-b`, the zone of the second subnet, where C3 has the
zone of the first one, `zone-a`. -/
theorem build_single_network_empty_network_id :
    blankNetRemote.DescribeVSwitch [] "vsw-a" = .ok ⟨"", "zone-a"⟩ ∧
      blankNetRemote.DescribeVSwitch [.DescribeVSwitch "vsw-a"] "vsw-b" = .ok ⟨"", "zone-b"⟩ ∧
      ((buildManagedKubernetesArgs sampleConsts blankNetRemote sampleCluster []).1.toOption.map
        (fun args => (args.VPCID, args.ZoneId))) = some ("", "zone-b") := by
  refine ⟨?_, ?_, ?_⟩ <;> rfl

/-! ## Billing period fields -/

/-- C10: whenever `buildManagedKubernetesArgs` returns a request, the four billing
period fields of the request are those of the configuration if
`worker_instance_charge_type` is `PrePaid`, and keep their zero values (`false`,
`0`, `0`, `""`) for every other charge type, whatever the configuration holds.
(`PrePaid` is a non-empty literal.) -/
theorem build_billing_period_fields (k : Consts) (env : Remote) (d : ClusterData)
    (tr tr1 : List Event) (args : KubernetesCreationArgs) (hPrePaid : k.PrePaid ≠ "")
    (hbuild : buildManagedKubernetesArgs k env d tr = (.ok args, tr1)) :
    (d.worker_instance_charge_type = k.PrePaid →
        args.WorkerAutoRenew = d.worker_auto_renew ∧
        args.WorkerAutoRenewPeriod = d.worker_auto_renew_period ∧
        args.WorkerPeriod = d.worker_period ∧
        args.WorkerPeriodUnit = d.worker_period_unit) ∧
      (d.worker_instance_charge_type ≠ k.PrePaid →
        args.WorkerAutoRenew = false ∧
        args.WorkerAutoRenewPeriod = 0 ∧
        args.WorkerPeriod = 0 ∧
        args.WorkerPeriodUnit = "") := by
  simp only [buildManagedKubernetesArgs] at hbuild
  cases hrun : describeVSwitches env d.vswitch_ids "" "" tr with
  | mk res tr2 =>
    rw [hrun] at hbuild
    cases res with
    | error e => simp at hbuild
    | ok p =>
      obtain ⟨vpcId, zoneId⟩ := p
      simp only [Prod.mk.injEq, Except.ok.injEq] at hbuild
      obtain ⟨hargs, _⟩ := hbuild
      subst hargs
      unfold setChargeType setDataDisk
      dsimp only
      constructor
      · intro hc
        have hc1 : d.worker_instance_charge_type ≠ "" := by rw [hc]; exact hPrePaid
        rw [if_pos hc1, if_pos hc]
        exact ⟨rfl, rfl, rfl, rfl⟩
      · intro hc
        split_ifs <;> exact ⟨rfl, rfl, rfl, rfl⟩

/-- Witness of C10: the sample configuration (charge type `PostPaid`, automatic
renewal switched on in the configuration) builds a request. -/
theorem build_billing_period_fields_witness :
    sampleConsts.PrePaid ≠ "" ∧
      (∃ args tr1, buildManagedKubernetesArgs sampleConsts quietRemote sampleCluster [] =
          (.ok args, tr1) ∧
        (sampleCluster.worker_instance_charge_type ≠ sampleConsts.PrePaid →
          args.WorkerAutoRenew = false ∧ args.WorkerAutoRenewPeriod = 0 ∧
          args.WorkerPeriod = 0 ∧ args.WorkerPeriodUnit = "")) :=
  ⟨by decide, _, _, rfl,
    (build_billing_period_fields sampleConsts quietRemote sampleCluster [] _ _ (by decide) rfl).2⟩

/-! ## Route entry: identifier, read-back, delete -/

/-- The publish loop adds nothing but publish calls to the history. -/
theorem publish_retry_trace (k : Consts) (env : Remote) (request : RouteEntriesRequest)
    (n : Nat) (tr : List Event) :
    ∃ m, (Retry (publishAttempt k env request) n tr).2 =
      tr ++ List.replicate m (Event.PublishRouteEntries request) := by
  induction n generalizing tr with
  | zero =>
    refine ⟨1, ?_⟩
    cases h : env.PublishRouteEntries tr request with
    | none => simp [Retry, publishAttempt, h]
    | some e =>
      by_cases hx : IsExceptedErrors e [k.OperationBlocking, k.InvalidStateForOperationMsg] = true
      · simp [Retry, publishAttempt, h, hx]
      · simp [Retry, publishAttempt, h, hx]
  | succ n ih =>
    cases h : env.PublishRouteEntries tr request with
    | none => exact ⟨1, by simp [Retry, publishAttempt, h]⟩
    | some e =>
      by_cases hx : IsExceptedErrors e [k.OperationBlocking, k.InvalidStateForOperationMsg] = true
      · obtain ⟨m, hm⟩ := ih (tr ++ [Event.PublishRouteEntries request])
        refine ⟨m + 1, ?_⟩
        simp only [Retry, publishAttempt, h, hx, if_true]
        rw [hm, List.replicate_succ]
        simp
      · exact ⟨1, by simp [Retry, publishAttempt, h, hx]⟩

/-- Read of a route entry extends the history, and leaves the identifier as it is
or clears it with a `SetId ""`. -/
theorem route_read_identifier (k : Consts) (env : Remote) (d : RouteEntryData)
    (tr : List Event) :
    ∃ rest, (resourceAlicloudCenRouteEntryRead k env d tr).trace = tr ++ rest ∧
      ((resourceAlicloudCenRouteEntryRead k env d tr).d.Id = d.Id ∨
        ((resourceAlicloudCenRouteEntryRead k env d tr).d.Id = "" ∧ Event.SetId "" ∈ rest)) := by
  unfold resourceAlicloudCenRouteEntryRead
  cases ParseResourceId d.Id 3 with
  | error e => exact ⟨[], by simp⟩
  | ok parts =>
    cases env.DescribeCenRouteEntry tr d.Id with
    | error e =>
      by_cases hn : NotFoundError e = true
      · exact ⟨[.DescribeCenRouteEntry d.Id, .SetId ""], by simp [hn]⟩
      · exact ⟨[.DescribeCenRouteEntry d.Id], by simp [hn]⟩
    | ok object =>
      by_cases hp : object.PublishStatus = k.NOPUBLISHED
      · exact ⟨[.DescribeCenRouteEntry d.Id, .SetId ""], by simp [hp]⟩
      · exact ⟨[.DescribeCenRouteEntry d.Id], by simp [hp]⟩

/-- C4: in a route-entry Create that reaches the publish call, (1) when the publish
loop ends with `nil`, the next event is `SetId` of
`cenId ++ ":" ++ vtbId ++ ":" ++ cidr`, and the identifier Create leaves behind is
that string unless the read-back at the end of Create cleared it; (2) when the
publish loop ends with an error, Create returns it wrapped, the resource data are
the ones it was handed and no `SetId` event was added. -/
theorem create_sets_identifier (k : Consts) (env : Remote) (lim : Limits)
    (d : RouteEntryData) (tr : List Event) (cid ctype : String)
    (hparas : env.CreateCenRouteEntryParas tr d.route_table_id = .ok (cid, ctype)) :
    (∀ tr2,
      Retry (publishAttempt k env
          ⟨d.instance_id, cid, ctype, env.RegionId, d.route_table_id, d.cidr_block⟩)
        lim.publish (tr ++ [.CreateCenRouteEntryParas d.route_table_id]) = (none, tr2) →
      ∃ rest,
        (resourceAlicloudCenRouteEntryCreate k env lim d tr).trace =
          tr2 ++ Event.SetId (d.instance_id ++ ":" ++ d.route_table_id ++ ":" ++ d.cidr_block)
            :: rest ∧
        ((resourceAlicloudCenRouteEntryCreate k env lim d tr).d.Id =
            d.instance_id ++ ":" ++ d.route_table_id ++ ":" ++ d.cidr_block ∨
          ((resourceAlicloudCenRouteEntryCreate k env lim d tr).d.Id = "" ∧
            Event.SetId "" ∈ rest))) ∧
    (∀ err tr2,
      Retry (publishAttempt k env
          ⟨d.instance_id, cid, ctype, env.RegionId, d.route_table_id, d.cidr_block⟩)
        lim.publish (tr ++ [.CreateCenRouteEntryParas d.route_table_id]) = (some err, tr2) →
      resourceAlicloudCenRouteEntryCreate k env lim d tr =
          ⟨some (.WrapErrorf (.sdk err) k.DefaultErrorMsg), d, tr2⟩ ∧
        ∀ s, Event.SetId s ∈ tr2 → Event.SetId s ∈ tr) := by
  constructor
  · intro tr2 hretry
    simp only [resourceAlicloudCenRouteEntryCreate, hparas, hretry, COLON_SEPARATED]
    cases hw : env.WaitForCenRouterEntry
        (tr2 ++ [Event.SetId (d.instance_id ++ ":" ++ d.route_table_id ++ ":" ++ d.cidr_block)])
        (d.instance_id ++ ":" ++ d.route_table_id ++ ":" ++ d.cidr_block) k.PUBLISHED with
    | some e =>
      exact ⟨[.WaitForCenRouterEntry
        (d.instance_id ++ ":" ++ d.route_table_id ++ ":" ++ d.cidr_block) k.PUBLISHED],
        by simp, Or.inl rfl⟩
    | none =>
      obtain ⟨rest, htrace, hid⟩ := route_read_identifier k env
        { d with Id := d.instance_id ++ ":" ++ d.route_table_id ++ ":" ++ d.cidr_block }
        (tr2 ++ [Event.SetId (d.instance_id ++ ":" ++ d.route_table_id ++ ":" ++ d.cidr_block)]
          ++ [.WaitForCenRouterEntry
            (d.instance_id ++ ":" ++ d.route_table_id ++ ":" ++ d.cidr_block) k.PUBLISHED])
      refine ⟨.WaitForCenRouterEntry
        (d.instance_id ++ ":" ++ d.route_table_id ++ ":" ++ d.cidr_block) k.PUBLISHED :: rest,
        ?_, ?_⟩
      · simp only [htrace]; simp
      · rcases hid with h | ⟨h, hmem⟩
        · exact Or.inl h
        · exact Or.inr ⟨h, List.mem_cons_of_mem _ hmem⟩
  · intro err tr2 hretry
    refine ⟨by simp only [resourceAlicloudCenRouteEntryCreate, hparas, hretry], ?_⟩
    intro s hs
    obtain ⟨m, hm⟩ := publish_retry_trace k env
      ⟨d.instance_id, cid, ctype, env.RegionId, d.route_table_id, d.cidr_block⟩ lim.publish
      (tr ++ [.CreateCenRouteEntryParas d.route_table_id])
    rw [hretry] at hm
    simp only at hm
    rw [hm] at hs
    simp only [List.mem_append, List.mem_singleton, List.mem_replicate] at hs
    rcases hs with (h | h) | ⟨_, h⟩
    · exact h
    · cases h
    · cases h

/-- Witness of C4: the route entry of the spec's example, `cen-1`, `vtb-1`,
`10.0.0.0/16`, on a remote system where every call succeeds. -/
theorem create_sets_identifier_witness :
    quietRemote.CreateCenRouteEntryParas [] sampleRoute.route_table_id = .ok ("vpc-1", "VPC") ∧
      (resourceAlicloudCenRouteEntryCreate sampleConsts quietRemote sampleLimits
        sampleRoute []).d.Id = "cen-1:vtb-1:10.0.0.0/16" ∧
      ∃ rest,
        (resourceAlicloudCenRouteEntryCreate sampleConsts quietRemote sampleLimits
          sampleRoute []).trace =
          [.CreateCenRouteEntryParas "vtb-1",
            .PublishRouteEntries ⟨"cen-1", "vpc-1", "VPC", "cn-hangzhou", "vtb-1", "10.0.0.0/16"⟩]
            ++ Event.SetId ("cen-1" ++ ":" ++ "vtb-1" ++ ":" ++ "10.0.0.0/16") :: rest ∧
          ((resourceAlicloudCenRouteEntryCreate sampleConsts quietRemote sampleLimits
              sampleRoute []).d.Id = "cen-1" ++ ":" ++ "vtb-1" ++ ":" ++ "10.0.0.0/16" ∨
            ((resourceAlicloudCenRouteEntryCreate sampleConsts quietRemote sampleLimits
              sampleRoute []).d.Id = "" ∧ Event.SetId "" ∈ rest)) :=
  ⟨rfl, by decide,
    (create_sets_identifier sampleConsts quietRemote sampleLimits sampleRoute [] "vpc-1" "VPC"
      rfl).1 _ (by decide)⟩

/-- C5: Read treats a gone resource as cleared state. For a route entry whose
identifier parses: when the describe call reports not-found, or the described
publish status is the unpublished one, Read returns `nil`, sets the identifier to
`""` and leaves every attribute as it was; for any other described status the
identifier stays and `instance_id`, `route_table_id`, `cidr_block` become the first
part of the identifier and the two fields of the described object. For a cluster:
when the describe call reports not-found, Read returns `nil`, sets the identifier
to `""` and leaves every attribute as it was. -/
theorem read_gone_clears_state (k : Consts) (env : Remote) (lim : Limits) :
    (∀ (d : RouteEntryData) (tr : List Event) (parts : List String) (e : Err),
      ParseResourceId d.Id 3 = .ok parts →
      env.DescribeCenRouteEntry tr d.Id = .error e → NotFoundError e = true →
      resourceAlicloudCenRouteEntryRead k env d tr =
        ⟨none, { d with Id := "" }, tr ++ [.DescribeCenRouteEntry d.Id, .SetId ""]⟩) ∧
    (∀ (d : RouteEntryData) (tr : List Event) (parts : List String) (object : CenRouteEntry),
      ParseResourceId d.Id 3 = .ok parts →
      env.DescribeCenRouteEntry tr d.Id = .ok object → object.PublishStatus = k.NOPUBLISHED →
      resourceAlicloudCenRouteEntryRead k env d tr =
        ⟨none, { d with Id := "" }, tr ++ [.DescribeCenRouteEntry d.Id, .SetId ""]⟩) ∧
    (∀ (d : RouteEntryData) (tr : List Event) (parts : List String) (object : CenRouteEntry),
      ParseResourceId d.Id 3 = .ok parts →
      env.DescribeCenRouteEntry tr d.Id = .ok object → object.PublishStatus ≠ k.NOPUBLISHED →
      resourceAlicloudCenRouteEntryRead k env d tr =
        ⟨none,
          { Id := d.Id
            instance_id := parts.headD ""
            route_table_id := object.ChildInstanceRouteTableId
            cidr_block := object.DestinationCidrBlock },
          tr ++ [.DescribeCenRouteEntry d.Id]⟩) ∧
    (∀ (d : ClusterData) (tr : List Event) (e : Err),
      env.DescribeKubernetesCluster tr d.Id = .error e →
      (NotFoundError e || IsExceptedError e k.ErrorClusterNotFound) = true →
      resourceAlicloudCSManagedKubernetesRead k env lim d tr =
        .returned ⟨none, { d with Id := "" },
          tr ++ [.DescribeKubernetesCluster d.Id, .SetId ""]⟩) := by
  refine ⟨?_, ?_, ?_, ?_⟩
  · intro d tr parts e hparse hdesc hnf
    simp [resourceAlicloudCenRouteEntryRead, hparse, hdesc, hnf]
  · intro d tr parts object hparse hdesc hstatus
    simp [resourceAlicloudCenRouteEntryRead, hparse, hdesc, hstatus]
  · intro d tr parts object hparse hdesc hstatus
    simp [resourceAlicloudCenRouteEntryRead, hparse, hdesc, hstatus]
  · intro d tr e hdesc hnf
    simp only [resourceAlicloudCSManagedKubernetesRead, hdesc, hnf, if_true]

/-- Witness of C5: the route entry `cen-1:vtb-1:10.0.0.0/16` read back while it is
described as unpublished. -/
theorem read_gone_clears_state_witness :
    ParseResourceId createdRoute.Id 3 = .ok ["cen-1", "vtb-1", "10.0.0.0/16"] ∧
      unpublishedRemote.DescribeCenRouteEntry [] createdRoute.Id =
        .ok ⟨"unpublished", "vtb-1", "10.0.0.0/16"⟩ ∧
      (CenRouteEntry.mk "unpublished" "vtb-1" "10.0.0.0/16").PublishStatus =
        sampleConsts.NOPUBLISHED ∧
      resourceAlicloudCenRouteEntryRead sampleConsts unpublishedRemote createdRoute [] =
        ⟨none, { createdRoute with Id := "" },
          [] ++ [.DescribeCenRouteEntry createdRoute.Id, .SetId ""]⟩ :=
  ⟨rfl, rfl, rfl,
    (read_gone_clears_state sampleConsts unpublishedRemote sampleLimits).2.1 createdRoute []
      ["cen-1", "vtb-1", "10.0.0.0/16"] ⟨"unpublished", "vtb-1", "10.0.0.0/16"⟩
      rfl rfl rfl⟩

/-- When every withdraw call fails, the withdraw loop ends with the error of one of
these calls. -/
theorem withdraw_retry_fails (k : Consts) (env : Remote) (request : RouteEntriesRequest)
    (hfail : ∀ h, ∃ e, env.WithdrawPublishedRouteEntries h request = some e)
    (n : Nat) (tr : List Event) :
    ∃ e h, (Retry (withdrawAttempt k env request) n tr).1 = some e ∧
      env.WithdrawPublishedRouteEntries h request = some e := by
  induction n generalizing tr with
  | zero =>
    obtain ⟨e, he⟩ := hfail tr
    refine ⟨e, tr, ?_, he⟩
    by_cases hx : IsExceptedErrors e [k.InvalidCenInstanceStatus, k.InternalError] = true
    · simp [Retry, withdrawAttempt, he, hx]
    · simp [Retry, withdrawAttempt, he, hx]
  | succ n ih =>
    obtain ⟨e, he⟩ := hfail tr
    by_cases hx : IsExceptedErrors e [k.InvalidCenInstanceStatus, k.InternalError] = true
    · obtain ⟨e1, h1, hr, hc⟩ := ih (tr ++ [Event.WithdrawPublishedRouteEntries request])
      exact ⟨e1, h1, by simpa [Retry, withdrawAttempt, he, hx] using hr, hc⟩
    · exact ⟨e, tr, by simp [Retry, withdrawAttempt, he, hx], he⟩

/-- C6: Delete on an already-absent resource returns `nil`. Route entry: when the
route-table lookup reports not-found (nothing else is called); when the withdraw
loop ends with an error whose code is the route-not-found or the instance-not-exist
one (no wait follows); and hence whenever the remote system answers every withdraw
call with such an error. Cluster: when the delete-cluster call reports not-found,
and when it succeeds and the describe call that follows reports not-found. -/
theorem delete_absent_succeeds (k : Consts) (env : Remote) (lim : Limits) :
    (∀ (d : RouteEntryData) (tr : List Event) (e : Err),
      env.CreateCenRouteEntryParas tr d.route_table_id = .error e → NotFoundError e = true →
      resourceAlicloudCenRouteEntryDelete k env lim d tr =
        ⟨none, d, tr ++ [.CreateCenRouteEntryParas d.route_table_id]⟩) ∧
    (∀ (d : RouteEntryData) (tr tr2 : List Event) (cid ctype : String) (e : Err),
      env.CreateCenRouteEntryParas tr d.route_table_id = .ok (cid, ctype) →
      Retry (withdrawAttempt k env
          ⟨d.instance_id, cid, ctype, env.RegionId, d.route_table_id, d.cidr_block⟩)
        lim.withdraw (tr ++ [.CreateCenRouteEntryParas d.route_table_id]) = (some e, tr2) →
      (e.code = k.NotFoundRoute ∨ e.code = k.InstanceNotExistMsg) →
      resourceAlicloudCenRouteEntryDelete k env lim d tr = ⟨none, d, tr2⟩) ∧
    (∀ (d : RouteEntryData) (tr : List Event) (cid ctype : String),
      env.CreateCenRouteEntryParas tr d.route_table_id = .ok (cid, ctype) →
      (∀ h, ∃ e, env.WithdrawPublishedRouteEntries h
          ⟨d.instance_id, cid, ctype, env.RegionId, d.route_table_id, d.cidr_block⟩ = some e ∧
        (e.code = k.NotFoundRoute ∨ e.code = k.InstanceNotExistMsg)) →
      (resourceAlicloudCenRouteEntryDelete k env lim d tr).err = none ∧
        (resourceAlicloudCenRouteEntryDelete k env lim d tr).d = d) ∧
    (∀ (d : ClusterData) (tr : List Event) (e : Err),
      env.DeleteCluster tr d.Id = some e →
      (NotFoundError e || IsExceptedError e k.ErrorClusterNotFound) = true →
      resourceAlicloudCSManagedKubernetesDelete k env lim d tr =
        ⟨none, d, tr ++ [.DeleteCluster d.Id]⟩) ∧
    (∀ (d : ClusterData) (tr : List Event) (e : Err),
      env.DeleteCluster tr d.Id = none →
      env.DescribeCluster (tr ++ [.DeleteCluster d.Id]) d.Id = .error e →
      (NotFoundError e || IsExceptedError e k.ErrorClusterNotFound) = true →
      resourceAlicloudCSManagedKubernetesDelete k env lim d tr =
        ⟨none, d, tr ++ [.DeleteCluster d.Id, .DescribeCluster d.Id]⟩) := by
  have hcode : ∀ e : Err, (e.code = k.NotFoundRoute ∨ e.code = k.InstanceNotExistMsg) →
      IsExceptedErrors e [k.NotFoundRoute, k.InstanceNotExistMsg] = true := by
    intro e he
    simpa [IsExceptedErrors, IsExceptedError] using he
  refine ⟨?_, ?_, ?_, ?_, ?_⟩
  · intro d tr e hparas hnf
    simp [resourceAlicloudCenRouteEntryDelete, hparas, hnf]
  · intro d tr tr2 cid ctype e hparas hretry he
    simp only [resourceAlicloudCenRouteEntryDelete, hparas, hretry, hcode e he, if_true]
  · intro d tr cid ctype hparas hall
    obtain ⟨e, h, hr, hc⟩ := withdraw_retry_fails k env
      ⟨d.instance_id, cid, ctype, env.RegionId, d.route_table_id, d.cidr_block⟩
      (fun h => (hall h).imp fun _ he => he.1) lim.withdraw
      (tr ++ [.CreateCenRouteEntryParas d.route_table_id])
    have he : e.code = k.NotFoundRoute ∨ e.code = k.InstanceNotExistMsg := by
      obtain ⟨e1, h1, h2⟩ := hall h
      rw [hc] at h1
      cases h1
      exact h2
    cases hret : Retry (withdrawAttempt k env
        ⟨d.instance_id, cid, ctype, env.RegionId, d.route_table_id, d.cidr_block⟩)
        lim.withdraw (tr ++ [.CreateCenRouteEntryParas d.route_table_id]) with
    | mk r tr2 =>
      rw [hret] at hr
      simp only at hr
      subst hr
      simp only [resourceAlicloudCenRouteEntryDelete, hparas, hret, hcode e he, if_true,
        and_self]
  · intro d tr e hdel hnf
    have hatt : deleteClusterAttempt k env d.Id tr = (none, tr ++ [.DeleteCluster d.Id]) := by
      simp only [deleteClusterAttempt, hdel, hnf, if_true]
    simp only [resourceAlicloudCSManagedKubernetesDelete,
      Retry_of_nil _ lim.deleteCluster tr _ hatt]
  · intro d tr e hdel hdesc hnf
    have hatt : deleteClusterAttempt k env d.Id tr =
        (none, tr ++ [.DeleteCluster d.Id, .DescribeCluster d.Id]) := by
      simp only [deleteClusterAttempt, hdel, hdesc, hnf, if_true]
      simp
    simp only [resourceAlicloudCSManagedKubernetesDelete,
      Retry_of_nil _ lim.deleteCluster tr _ hatt]

/-- Witness of C6: deleting the route entry `cen-1:vtb-1:10.0.0.0/16` on a remote
system that answers every withdraw call with the route-not-found error. -/
theorem delete_absent_succeeds_witness :
    routeGoneRemote.CreateCenRouteEntryParas [] createdRoute.route_table_id =
        .ok ("vpc-1", "VPC") ∧
      (resourceAlicloudCenRouteEntryDelete sampleConsts routeGoneRemote sampleLimits
        createdRoute []).err = none ∧
      (resourceAlicloudCenRouteEntryDelete sampleConsts routeGoneRemote sampleLimits
        createdRoute []).d = createdRoute :=
  ⟨rfl,
    (delete_absent_succeeds sampleConsts routeGoneRemote sampleLimits).2.2.1 createdRoute []
      "vpc-1" "VPC" rfl
      (fun _ => ⟨⟨"InvalidOperation.NotFoundRoute", false⟩, rfl, Or.inl rfl⟩)⟩

/-! ## Classification of failures inside the retry loops -/

/-- C7, as the code has it: in the publish and the withdraw loop, a failed call is
classified retryable exactly when its error code is on the allow-list of the
operation (publish: `OperationBlocking`, `InvalidStateForOperationMsg`; withdraw:
`InvalidCenInstanceStatus`, `InternalError`); every other failure is classified
non-retryable and the loop ends at once with that error, after this one call. In
the delete-cluster loop there is no allow-list: a failed delete-cluster call that
reports not-found ends the attempt with `nil`, and every other failure of it is
classified retryable. -/
theorem retry_classification (k : Consts) (env : Remote) :
    (∀ (request : RouteEntriesRequest) (h : List Event) (e : Err),
      env.PublishRouteEntries h request = some e →
      ((publishAttempt k env request h).1 = some (.RetryableError e) ↔
        (e.code = k.OperationBlocking ∨ e.code = k.InvalidStateForOperationMsg)) ∧
      (¬ (e.code = k.OperationBlocking ∨ e.code = k.InvalidStateForOperationMsg) →
        (publishAttempt k env request h).1 = some (.NonRetryableError e) ∧
        ∀ n, Retry (publishAttempt k env request) n h =
          (some e, h ++ [.PublishRouteEntries request]))) ∧
    (∀ (request : RouteEntriesRequest) (h : List Event) (e : Err),
      env.WithdrawPublishedRouteEntries h request = some e →
      ((withdrawAttempt k env request h).1 = some (.RetryableError e) ↔
        (e.code = k.InvalidCenInstanceStatus ∨ e.code = k.InternalError)) ∧
      (¬ (e.code = k.InvalidCenInstanceStatus ∨ e.code = k.InternalError) →
        (withdrawAttempt k env request h).1 = some (.NonRetryableError e) ∧
        ∀ n, Retry (withdrawAttempt k env request) n h =
          (some e, h ++ [.WithdrawPublishedRouteEntries request]))) ∧
    (∀ (id : String) (h : List Event) (e : Err),
      env.DeleteCluster h id = some e →
      ((NotFoundError e || IsExceptedError e k.ErrorClusterNotFound) = true →
        deleteClusterAttempt k env id h = (none, h ++ [.DeleteCluster id])) ∧
      ((NotFoundError e || IsExceptedError e k.ErrorClusterNotFound) = false →
        deleteClusterAttempt k env id h =
          (some (.RetryableError (.ErrorfWith
            "Delete ManagedKubernetes Cluster timeout and get an error: %#v." (.sdk e))),
            h ++ [.DeleteCluster id]))) := by
  refine ⟨?_, ?_, ?_⟩
  · intro request h e hcall
    have hiff : IsExceptedErrors e [k.OperationBlocking, k.InvalidStateForOperationMsg] = true ↔
        (e.code = k.OperationBlocking ∨ e.code = k.InvalidStateForOperationMsg) := by
      simp [IsExceptedErrors, IsExceptedError]
    by_cases hx : IsExceptedErrors e [k.OperationBlocking, k.InvalidStateForOperationMsg] = true
    · refine ⟨?_, fun hn => absurd (hiff.mp hx) hn⟩
      simp [publishAttempt, hcall, hx, hiff.mp hx]
    · have hatt : publishAttempt k env request h =
          (some (.NonRetryableError e), h ++ [.PublishRouteEntries request]) := by
        simp [publishAttempt, hcall, hx]
      refine ⟨?_, fun _ => ⟨by rw [hatt], fun n => Retry_of_nonRetryable _ n h _ e hatt⟩⟩
      rw [hatt]
      constructor
      · intro hc; cases hc
      · intro hc; exact absurd (hiff.mpr hc) hx
  · intro request h e hcall
    have hiff : IsExceptedErrors e [k.InvalidCenInstanceStatus, k.InternalError] = true ↔
        (e.code = k.InvalidCenInstanceStatus ∨ e.code = k.InternalError) := by
      simp [IsExceptedErrors, IsExceptedError]
    by_cases hx : IsExceptedErrors e [k.InvalidCenInstanceStatus, k.InternalError] = true
    · refine ⟨?_, fun hn => absurd (hiff.mp hx) hn⟩
      simp [withdrawAttempt, hcall, hx, hiff.mp hx]
    · have hatt : withdrawAttempt k env request h =
          (some (.NonRetryableError e), h ++ [.WithdrawPublishedRouteEntries request]) := by
        simp [withdrawAttempt, hcall, hx]
      refine ⟨?_, fun _ => ⟨by rw [hatt], fun n => Retry_of_nonRetryable _ n h _ e hatt⟩⟩
      rw [hatt]
      constructor
      · intro hc; cases hc
      · intro hc; exact absurd (hiff.mpr hc) hx
  · intro id h e hcall
    constructor
    · intro hnf
      simp only [deleteClusterAttempt, hcall, hnf, if_true]
    · intro hnf
      simp [deleteClusterAttempt, hcall, hnf]

/-- Witness of C7: a publish call that fails with the code `Forbidden` is
classified non-retryable and ends the loop after this one call. -/
theorem retry_classification_witness :
    ({ quietRemote with PublishRouteEntries := fun _ _ => some ⟨"Forbidden", false⟩ } :
        Remote).PublishRouteEntries []
        ⟨"cen-1", "vpc-1", "VPC", "cn-hangzhou", "vtb-1", "10.0.0.0/16"⟩ =
        some ⟨"Forbidden", false⟩ ∧
      ¬ ((Err.mk "Forbidden" false).code = sampleConsts.OperationBlocking ∨
        (Err.mk "Forbidden" false).code = sampleConsts.InvalidStateForOperationMsg) ∧
      ∀ n, Retry (publishAttempt sampleConsts
          { quietRemote with PublishRouteEntries := fun _ _ => some ⟨"Forbidden", false⟩ }
          ⟨"cen-1", "vpc-1", "VPC", "cn-hangzhou", "vtb-1", "10.0.0.0/16"⟩) n [] =
        (some ⟨"Forbidden", false⟩,
          [] ++ [.PublishRouteEntries
            ⟨"cen-1", "vpc-1", "VPC", "cn-hangzhou", "vtb-1", "10.0.0.0/16"⟩]) :=
  ⟨rfl, by decide,
    (((retry_classification sampleConsts
      { quietRemote with PublishRouteEntries := fun _ _ => some ⟨"Forbidden", false⟩ }).1
      ⟨"cen-1", "vpc-1", "VPC", "cn-hangzhou", "vtb-1", "10.0.0.0/16"⟩ []
      ⟨"Forbidden", false⟩ rfl).2 (by decide)).2⟩

/-- C7, as stated, fails for delete cluster: a delete-cluster call that fails with
the code `Forbidden`, which is on none of the allow-lists and is not a not-found
error, is classified retryable, and with a budget of four attempts Delete issues
the call four times instead of stopping after the first. -/
theorem retry_classification_counterexample :
    IsExceptedErrors ⟨"Forbidden", false⟩
        [sampleConsts.OperationBlocking, sampleConsts.InvalidStateForOperationMsg,
          sampleConsts.InvalidCenInstanceStatus, sampleConsts.InternalError] = false ∧
      (deleteClusterAttempt sampleConsts forbiddenRemote "c-1" []).1 =
        some (.RetryableError (.ErrorfWith
          "Delete ManagedKubernetes Cluster timeout and get an error: %#v."
          (.sdk ⟨"Forbidden", false⟩))) ∧
      (resourceAlicloudCSManagedKubernetesDelete sampleConsts forbiddenRemote sampleLimits
        sampleCluster []).trace =
        [.DeleteCluster "c-1", .DeleteCluster "c-1", .DeleteCluster "c-1", .DeleteCluster "c-1"] := by
  refine ⟨?_, ?_, ?_⟩ <;> decide

/-! ## Polling the first page of worker nodes -/

/-- While the cluster's state is outside the stable-state set, the poll never
ends with `nil`, and it leaves the page unchanged or replaced by a fetched one. -/
theorem nodes_poll_not_stable (k : Consts) (env : Remote) (id : String)
    (cluster : KubernetesCluster) (pageNumber : Int)
    (hstate : cluster.State ∉ k.NodeStableClusterState) (n : Nat)
    (st : List KubernetesNodeType × List Event) :
    (Retry (nodesPollAttempt k env id cluster pageNumber) n st).1 ≠ none := by
  induction n generalizing st with
  | zero =>
    cases hf : env.GetKubernetesClusterNodes st.2 id pageNumber k.PageSizeLarge with
    | error e => simp [Retry, nodesPollAttempt, hf]
    | ok p => simp [Retry, nodesPollAttempt, hf, hstate]
  | succ n ih =>
    cases hf : env.GetKubernetesClusterNodes st.2 id pageNumber k.PageSizeLarge with
    | error e => simp [Retry, nodesPollAttempt, hf]
    | ok p =>
      simp only [Retry, nodesPollAttempt, hf, hstate, if_false]
      exact ih _

/-- C9, as the code has it, for the poll Read runs when the first page of worker
nodes is empty or its first node has an empty instance ID. (1) If the cluster's
state is in the stable-state set and the fetch of the poll succeeds, the poll ends
with `nil` after this one fetch, and the accepted page is the fetched one when it
is non-empty with a non-empty first instance ID, and otherwise the page held
before (which may be empty). (2) A fetch that fails ends the poll with a
non-retryable error, whatever the state. (3) If the cluster's state is outside the
stable-state set, an attempt whose fetch succeeds is reported retryable, the poll
never ends with `nil`, and a Read that returns with such a first page returns an
error and leaves `worker_nodes` as it was. -/
theorem nodes_poll_until_stable (k : Consts) (env : Remote) (lim : Limits) :
    (∀ (id : String) (cluster : KubernetesCluster) (pageNumber : Int)
        (result tmp : List KubernetesNodeType) (h : List Event) (pageSize : Int) (n : Nat),
      cluster.State ∈ k.NodeStableClusterState →
      env.GetKubernetesClusterNodes h id pageNumber k.PageSizeLarge = .ok (tmp, pageSize) →
      Retry (nodesPollAttempt k env id cluster pageNumber) n (result, h) =
        (none, (if firstNodePresent tmp then tmp else result,
          h ++ [.GetKubernetesClusterNodes id pageNumber k.PageSizeLarge]))) ∧
    (∀ (id : String) (cluster : KubernetesCluster) (pageNumber : Int)
        (result : List KubernetesNodeType) (h : List Event) (e : Err) (n : Nat),
      env.GetKubernetesClusterNodes h id pageNumber k.PageSizeLarge = .error e →
      Retry (nodesPollAttempt k env id cluster pageNumber) n (result, h) =
        (some (.ErrorfWith "[ERROR] GetManagedKubernetesClusterNodes got an error: %#v."
          (.sdk e)),
          (result, h ++ [.GetKubernetesClusterNodes id pageNumber k.PageSizeLarge]))) ∧
    (∀ (id : String) (cluster : KubernetesCluster) (pageNumber : Int),
      cluster.State ∉ k.NodeStableClusterState →
      (∀ (result tmp : List KubernetesNodeType) (h : List Event) (pageSize : Int),
        env.GetKubernetesClusterNodes h id pageNumber k.PageSizeLarge = .ok (tmp, pageSize) →
        (nodesPollAttempt k env id cluster pageNumber (result, h)).1 =
          some (.RetryableError
            (.Errorf "[ERROR] There is no any nodes in ManagedKubernetes cluster %s."))) ∧
      (∀ (n : Nat) (st : List KubernetesNodeType × List Event),
        (Retry (nodesPollAttempt k env id cluster pageNumber) n st).1 ≠ none)) ∧
    (∀ (d : ClusterData) (tr : List Event) (cluster : KubernetesCluster)
        (result : List KubernetesNodeType) (pageSize : Int) (r : Result ClusterData),
      env.DescribeKubernetesCluster tr d.Id = .ok cluster →
      cluster.State ∉ k.NodeStableClusterState →
      env.GetKubernetesClusterNodes (tr ++ [.DescribeKubernetesCluster d.Id]) d.Id 1
        k.PageSizeLarge = .ok (result, pageSize) →
      firstNodeMissing result = true →
      resourceAlicloudCSManagedKubernetesRead k env lim d tr = .returned r →
      r.err ≠ none ∧ r.d.worker_nodes = d.worker_nodes) := by
  refine ⟨?_, ?_, ?_, ?_⟩
  · intro id cluster pageNumber result tmp h pageSize n hstate hfetch
    apply Retry_of_nil
    simp [nodesPollAttempt, hfetch, hstate]
  · intro id cluster pageNumber result h e n hfetch
    apply Retry_of_nonRetryable
    simp [nodesPollAttempt, hfetch]
  · intro id cluster pageNumber hstate
    refine ⟨?_, fun n st => nodes_poll_not_stable k env id cluster pageNumber hstate n st⟩
    intro result tmp h pageSize hfetch
    simp [nodesPollAttempt, hfetch, hstate]
  · intro d tr cluster result pageSize r hdesc hstate hfetch hmiss hread
    simp only [resourceAlicloudCSManagedKubernetesRead, hdesc] at hread
    cases hp : lim.pages with
    | zero =>
      rw [hp] at hread
      simp [readNodePages] at hread
    | succ fuel =>
      rw [hp] at hread
      have hpoll := nodes_poll_not_stable k env d.Id cluster 1 hstate lim.nodesPoll
        (result, tr ++ [.DescribeKubernetesCluster d.Id] ++
          [.GetKubernetesClusterNodes d.Id 1 k.PageSizeLarge])
      cases hret : Retry (nodesPollAttempt k env d.Id cluster 1) lim.nodesPoll
          (result, tr ++ [.DescribeKubernetesCluster d.Id] ++
            [.GetKubernetesClusterNodes d.Id 1 k.PageSizeLarge]) with
      | mk err st2 =>
        rw [hret] at hpoll
        cases err with
        | none => exact absurd rfl hpoll
        | some e =>
          simp only [readNodePages, hfetch, hmiss, and_self, if_true, hret] at hread
          cases hread
          exact ⟨by simp, rfl⟩

/-- Witness of C9: a cluster in the state `initial`, outside the stable-state set,
whose pages of nodes are empty: Read returns the error of the poll. -/
theorem nodes_poll_until_stable_witness :
    initialRemote.DescribeKubernetesCluster [] sampleCluster.Id =
        .ok ⟨"k8s", "vpc-1", "sg-1", "zone-a", "initial"⟩ ∧
      "initial" ∉ sampleConsts.NodeStableClusterState ∧
      initialRemote.GetKubernetesClusterNodes [.DescribeKubernetesCluster sampleCluster.Id]
        sampleCluster.Id 1 sampleConsts.PageSizeLarge = .ok ([], 50) ∧
      firstNodeMissing [] = true ∧
      resourceAlicloudCSManagedKubernetesRead sampleConsts initialRemote sampleLimits
          sampleCluster [] = .returned initialReadResult ∧
      (initialReadResult.err ≠ none ∧
        initialReadResult.d.worker_nodes = sampleCluster.worker_nodes) :=
  ⟨rfl, by decide, rfl, rfl, by decide,
    (nodes_poll_until_stable sampleConsts initialRemote sampleLimits).2.2.2 sampleCluster []
      ⟨"k8s", "vpc-1", "sg-1", "zone-a", "initial"⟩ [] 50 initialReadResult rfl (by decide)
      rfl rfl (by decide)⟩

/-- C9, as stated, fails in the stable state. On a cluster in the stable state
`running`, the first page is empty when first fetched and the fetch of the poll
returns one node without instance ID: the poll ends with `nil`, but the page it
accepts is the empty one fetched first, not the page fetched last, and
`worker_nodes` is set to the empty list. And when the fetch of the poll fails,
the poll does not succeed although the state is stable. -/
theorem nodes_poll_until_stable_counterexample :
    "running" ∈ sampleConsts.NodeStableClusterState ∧
      lateNodesRemote.GetKubernetesClusterNodes
          [.DescribeKubernetesCluster "c-1", .GetKubernetesClusterNodes "c-1" 1 50] "c-1" 1 50 =
        .ok ([⟨"", "node-1", ["10.0.0.1"]⟩], 50) ∧
      Retry (nodesPollAttempt sampleConsts lateNodesRemote "c-1"
          ⟨"k8s", "vpc-1", "sg-1", "zone-a", "running"⟩ 1) 3
          ([], [.DescribeKubernetesCluster "c-1", .GetKubernetesClusterNodes "c-1" 1 50]) =
        (none, ([], [.DescribeKubernetesCluster "c-1", .GetKubernetesClusterNodes "c-1" 1 50,
          .GetKubernetesClusterNodes "c-1" 1 50])) ∧
      (resourceAlicloudCSManagedKubernetesRead sampleConsts lateNodesRemote sampleLimits
        sampleCluster []).d.worker_nodes = [] ∧
      (Retry (nodesPollAttempt sampleConsts failingNodesRemote "c-1"
          ⟨"k8s", "vpc-1", "sg-1", "zone-a", "running"⟩ 1) 3
          ([], [.DescribeKubernetesCluster "c-1", .GetKubernetesClusterNodes "c-1" 1 50])).1 =
        some (.ErrorfWith "[ERROR] GetManagedKubernetesClusterNodes got an error: %#v."
          (.sdk ⟨"InternalError", false⟩)) := by
  refine ⟨by decide, rfl, ?_, ?_, ?_⟩ <;> decide

/-! ## Credentials in Read -/

/-- The poll of the first page adds nothing but fetches of that page. -/
theorem nodes_poll_trace (k : Consts) (env : Remote) (id : String)
    (cluster : KubernetesCluster) (pageNumber : Int) (n : Nat)
    (st : List KubernetesNodeType × List Event) :
    ∃ rest, (Retry (nodesPollAttempt k env id cluster pageNumber) n st).2.2 = st.2 ++ rest ∧
      ∀ e ∈ rest, e = Event.GetKubernetesClusterNodes id pageNumber k.PageSizeLarge := by
  induction n generalizing st with
  | zero =>
    refine ⟨[.GetKubernetesClusterNodes id pageNumber k.PageSizeLarge], ?_, by simp⟩
    cases hf : env.GetKubernetesClusterNodes st.2 id pageNumber k.PageSizeLarge with
    | error e => simp [Retry, nodesPollAttempt, hf]
    | ok p =>
      by_cases hs : cluster.State ∈ k.NodeStableClusterState
      · simp [Retry, nodesPollAttempt, hf, hs]
      · simp [Retry, nodesPollAttempt, hf, hs]
  | succ n ih =>
    cases hf : env.GetKubernetesClusterNodes st.2 id pageNumber k.PageSizeLarge with
    | error e =>
      exact ⟨[.GetKubernetesClusterNodes id pageNumber k.PageSizeLarge],
        by simp [Retry, nodesPollAttempt, hf], by simp⟩
    | ok p =>
      by_cases hs : cluster.State ∈ k.NodeStableClusterState
      · exact ⟨[.GetKubernetesClusterNodes id pageNumber k.PageSizeLarge],
          by simp [Retry, nodesPollAttempt, hf, hs], by simp⟩
      · obtain ⟨rest, hrest, hall⟩ := ih
          (if firstNodePresent p.1 = true then p.1 else st.1,
            st.2 ++ [.GetKubernetesClusterNodes id pageNumber k.PageSizeLarge])
        refine ⟨.GetKubernetesClusterNodes id pageNumber k.PageSizeLarge :: rest, ?_, ?_⟩
        · simp only [Retry, nodesPollAttempt, hf, hs, if_false]
          rw [hrest]
          simp
        · intro e he
          rcases List.mem_cons.mp he with h | h
          · exact h
          · exact hall e h

/-- The page loop adds nothing but fetches of node pages. -/
theorem readNodePages_trace (k : Consts) (env : Remote) (lim : Limits) (id : String)
    (cluster : KubernetesCluster) (fuel : Nat) (pageNumber : Int)
    (workerNodes : List WorkerNode) (tr : List Event) :
    ∃ rest, (readNodePages k env lim id cluster fuel pageNumber workerNodes tr).trace =
        tr ++ rest ∧
      ∀ e ∈ rest, ∃ pg, e = Event.GetKubernetesClusterNodes id pg k.PageSizeLarge := by
  induction fuel generalizing pageNumber workerNodes tr with
  | zero => exact ⟨[], by simp [readNodePages, PagesOutcome.trace], by simp⟩
  | succ fuel ih =>
    cases hf : env.GetKubernetesClusterNodes tr id pageNumber k.PageSizeLarge with
    | error e =>
      exact ⟨[.GetKubernetesClusterNodes id pageNumber k.PageSizeLarge],
        by simp [readNodePages, hf, PagesOutcome.trace], by simp⟩
    | ok p =>
      obtain ⟨result, pageSize⟩ := p
      have hpolled : ∃ err result2 rest1,
          (if pageNumber = 1 ∧ firstNodeMissing result = true then
              Retry (nodesPollAttempt k env id cluster pageNumber) lim.nodesPoll
                (result, tr ++ [.GetKubernetesClusterNodes id pageNumber k.PageSizeLarge])
            else (none, (result,
              tr ++ [.GetKubernetesClusterNodes id pageNumber k.PageSizeLarge]))) =
            (err, (result2,
              tr ++ [.GetKubernetesClusterNodes id pageNumber k.PageSizeLarge] ++ rest1)) ∧
          ∀ e ∈ rest1, e = Event.GetKubernetesClusterNodes id pageNumber k.PageSizeLarge := by
        by_cases hc : pageNumber = 1 ∧ firstNodeMissing result = true
        · obtain ⟨rest1, h1, h2⟩ := nodes_poll_trace k env id cluster pageNumber lim.nodesPoll
            (result, tr ++ [.GetKubernetesClusterNodes id pageNumber k.PageSizeLarge])
          cases hret : Retry (nodesPollAttempt k env id cluster pageNumber) lim.nodesPoll
              (result, tr ++ [.GetKubernetesClusterNodes id pageNumber k.PageSizeLarge]) with
          | mk err st2 =>
            obtain ⟨result2, tr2⟩ := st2
            rw [hret] at h1
            simp only at h1
            refine ⟨err, result2, rest1, ?_, h2⟩
            rw [if_pos hc, h1]
        · exact ⟨none, result, [], by rw [if_neg hc]; simp, by simp⟩
      obtain ⟨err, result2, rest1, hpoll, hall1⟩ := hpolled
      have hmem1 : ∀ e ∈ Event.GetKubernetesClusterNodes id pageNumber k.PageSizeLarge :: rest1,
          ∃ pg, e = Event.GetKubernetesClusterNodes id pg k.PageSizeLarge := by
        intro e he
        rcases List.mem_cons.mp he with h | h
        · exact ⟨pageNumber, h⟩
        · exact ⟨pageNumber, hall1 e h⟩
      simp only [readNodePages, hf, hpoll]
      cases err with
      | some e =>
        exact ⟨.GetKubernetesClusterNodes id pageNumber k.PageSizeLarge :: rest1,
          by simp [PagesOutcome.trace], hmem1⟩
      | none =>
        cases hm : mapNodes result2 with
        | none =>
          exact ⟨.GetKubernetesClusterNodes id pageNumber k.PageSizeLarge :: rest1,
            by simp [hm, PagesOutcome.trace], hmem1⟩
        | some mappings =>
          by_cases hlt : (result2.length : Int) < pageSize
          · exact ⟨.GetKubernetesClusterNodes id pageNumber k.PageSizeLarge :: rest1,
              by simp [hm, hlt, PagesOutcome.trace], hmem1⟩
          · obtain ⟨rest2, h2, hall2⟩ := ih (pageNumber + 1) (workerNodes ++ mappings)
              (tr ++ [.GetKubernetesClusterNodes id pageNumber k.PageSizeLarge] ++ rest1)
            refine ⟨.GetKubernetesClusterNodes id pageNumber k.PageSizeLarge :: rest1 ++ rest2,
              ?_, ?_⟩
            · simp only [hm, hlt, if_false, h2]
              simp
            · intro e he
              rcases List.mem_append.mp he with h | h
              · exact hmem1 e h
              · exact hall2 e h

/-- A conditional write adds at most the write to its path, and only for a
non-empty path. -/
theorem writeIfSet_events (env : Remote) (filePath data : String) (tr : List Event)
    (e : Event) (he : e ∈ (writeIfSet env filePath data tr).2) :
    e ∈ tr ∨ (e = Event.writeToFile filePath data ∧ filePath ≠ "") := by
  unfold writeIfSet at he
  by_cases hp : filePath = ""
  · simp [hp] at he
    exact Or.inl he
  · simp [hp] at he
    rcases he with h | h
    · exact Or.inl h
    · exact Or.inr ⟨h, hp⟩

/-- A conditional write keeps the history it is handed. -/
theorem writeIfSet_keeps (env : Remote) (filePath data : String) (tr : List Event)
    (e : Event) (he : e ∈ tr) : e ∈ (writeIfSet env filePath data tr).2 := by
  unfold writeIfSet
  by_cases hp : filePath = ""
  · simpa [hp] using he
  · simp [hp, he]

/-- The writes of the certificates keep the history they are handed. -/
theorem writeCerts_keeps (env : Remote) (d : ClusterData) (cert : ClusterCerts)
    (tr : List Event) (e : Event) (he : e ∈ tr) : e ∈ (writeCerts env d cert tr).2 := by
  unfold writeCerts
  have k1 := writeIfSet_keeps env d.client_cert cert.Cert tr e he
  cases h1 : writeIfSet env d.client_cert cert.Cert tr with
  | mk r1 tr1 =>
    rw [h1] at k1
    cases r1 with
    | some err => exact k1
    | none =>
      have k2 := writeIfSet_keeps env d.client_key cert.Key tr1 e k1
      cases h2 : writeIfSet env d.client_key cert.Key tr1 with
      | mk r2 tr2 =>
        rw [h2] at k2
        cases r2 with
        | some err => simp only [h2]; exact k2
        | none => simp only [h2]; exact writeIfSet_keeps env d.cluster_ca_cert cert.CA tr2 e k2

/-- The writes of the certificates add only writes to non-empty certificate paths
of the resource data. -/
theorem writeCerts_events (env : Remote) (d : ClusterData) (cert : ClusterCerts)
    (tr : List Event) (e : Event) (he : e ∈ (writeCerts env d cert tr).2) :
    e ∈ tr ∨ readEvent d e := by
  unfold writeCerts at he
  cases h1 : writeIfSet env d.client_cert cert.Cert tr with
  | mk r1 tr1 =>
    have s1 : ∀ x ∈ tr1, x ∈ tr ∨ readEvent d x := by
      intro x hx
      have := writeIfSet_events env d.client_cert cert.Cert tr x (by rw [h1]; exact hx)
      rcases this with h | ⟨h, hp⟩
      · exact Or.inl h
      · exact Or.inr (by rw [h]; exact ⟨hp, Or.inl rfl⟩)
    rw [h1] at he
    cases r1 with
    | some err => exact s1 e he
    | none =>
      cases h2 : writeIfSet env d.client_key cert.Key tr1 with
      | mk r2 tr2 =>
        have s2 : ∀ x ∈ tr2, x ∈ tr ∨ readEvent d x := by
          intro x hx
          have := writeIfSet_events env d.client_key cert.Key tr1 x (by rw [h2]; exact hx)
          rcases this with h | ⟨h, hp⟩
          · exact s1 x h
          · exact Or.inr (by rw [h]; exact ⟨hp, Or.inr (Or.inl rfl)⟩)
        simp only [h2] at he
        cases r2 with
        | some err => exact s2 e he
        | none =>
          have := writeIfSet_events env d.cluster_ca_cert cert.CA tr2 e he
          rcases this with h | ⟨h, hp⟩
          · exact s2 e h
          · exact Or.inr (by rw [h]; exact ⟨hp, Or.inr (Or.inr (Or.inl rfl))⟩)

/-- The credential part of Read always issues the get-cluster-certs call, and
adds only events allowed for the resource data. -/
theorem readCredentials_events (env : Remote) (d : ClusterData) (tr : List Event) :
    Event.GetClusterCerts d.Id ∈ (readCredentials env d tr).trace ∧
      ∀ e ∈ (readCredentials env d tr).trace, e ∈ tr ∨ readEvent d e := by
  unfold readCredentials
  cases hc : env.GetClusterCerts tr d.Id with
  | error err =>
    refine ⟨by simp, ?_⟩
    intro e he
    simp only [List.mem_append, List.mem_singleton] at he
    rcases he with h | h
    · exact Or.inl h
    · exact Or.inr (by rw [h]; trivial)
  | ok cert =>
    have hk := writeCerts_keeps env d cert (tr ++ [.GetClusterCerts d.Id])
      (.GetClusterCerts d.Id) (by simp)
    have hw : ∀ x ∈ (writeCerts env d cert (tr ++ [.GetClusterCerts d.Id])).2,
        x ∈ tr ∨ readEvent d x := by
      intro x hx
      rcases writeCerts_events env d cert _ x hx with h | h
      · simp only [List.mem_append, List.mem_singleton] at h
        rcases h with h | h
        · exact Or.inl h
        · exact Or.inr (by rw [h]; trivial)
      · exact Or.inr h
    cases hwc : writeCerts env d cert (tr ++ [.GetClusterCerts d.Id]) with
    | mk r tr1 =>
      rw [hwc] at hk hw
      simp only at hk hw
      cases r with
      | some err => simp only [hwc]; exact ⟨hk, hw⟩
      | none =>
        by_cases hkc : d.kube_config = ""
        · simp only [hwc, hkc, ne_eq, not_true_eq_false, if_false]
          exact ⟨hk, hw⟩
        · simp only [hwc, hkc, ne_eq, not_false_eq_true, if_true]
          have hcfg : readEvent d (.GetClusterConfig d.Id) := hkc
          cases env.GetClusterConfig tr1 d.Id with
          | error e1 =>
            refine ⟨by simp [hk], ?_⟩
            intro e he
            simp only [List.mem_append, List.mem_singleton] at he
            rcases he with h | h
            · exact hw e h
            · exact Or.inr (by rw [h]; exact hcfg)
          | ok config =>
            have hwr : readEvent d (.writeToFile d.kube_config config) :=
              ⟨hkc, Or.inr (Or.inr (Or.inr rfl))⟩
            cases hwf : env.writeToFile (tr1 ++ [.GetClusterConfig d.Id]) d.kube_config config with
            | some e2 =>
              simp only [hwf]
              refine ⟨by simp [hk], ?_⟩
              intro e he
              simp only [List.mem_append, List.mem_singleton] at he
              rcases he with (h | h) | h
              · exact hw e h
              · exact Or.inr (by rw [h]; exact hcfg)
              · exact Or.inr (by rw [h]; exact hwr)
            | none =>
              simp only [hwf]
              refine ⟨by simp [hk], ?_⟩
              intro e he
              simp only [List.mem_append, List.mem_singleton] at he
              rcases he with (h | h) | h
              · exact hw e h
              · exact Or.inr (by rw [h]; exact hcfg)
              · exact Or.inr (by rw [h]; exact hwr)

/-- Read adds only events allowed for the resource data it is handed. -/
theorem read_events (k : Consts) (env : Remote) (lim : Limits) (d : ClusterData)
    (tr : List Event) (e : Event)
    (he : e ∈ (resourceAlicloudCSManagedKubernetesRead k env lim d tr).trace) :
    e ∈ tr ∨ readEvent d e := by
  unfold resourceAlicloudCSManagedKubernetesRead at he
  cases hd : env.DescribeKubernetesCluster tr d.Id with
  | error err =>
    rw [hd] at he
    simp only at he
    by_cases hnf : (NotFoundError err || IsExceptedError err k.ErrorClusterNotFound) = true
    · rw [if_pos hnf] at he
      simp only [Outcome.trace, List.mem_append, List.mem_cons,
        List.mem_singleton, List.not_mem_nil, or_false] at he
      rcases he with h | h | h
      · exact Or.inl h
      · exact Or.inr (by rw [h]; trivial)
      · exact Or.inr (by rw [h]; trivial)
    · rw [if_neg hnf] at he
      simp only [Outcome.trace, List.mem_append, List.mem_singleton] at he
      rcases he with h | h
      · exact Or.inl h
      · exact Or.inr (by rw [h]; trivial)
  | ok cluster =>
    rw [hd] at he
    simp only at he
    obtain ⟨rest, hrest, hall⟩ := readNodePages_trace k env lim d.Id cluster lim.pages 1 []
      (tr ++ [.DescribeKubernetesCluster d.Id])
    have hpages : ∀ x ∈ (readNodePages k env lim d.Id cluster lim.pages 1 []
        (tr ++ [.DescribeKubernetesCluster d.Id])).trace, x ∈ tr ∨ readEvent d x := by
      intro x hx
      rw [hrest] at hx
      simp only [List.mem_append, List.mem_singleton] at hx
      rcases hx with (h | h) | h
      · exact Or.inl h
      · exact Or.inr (by rw [h]; trivial)
      · obtain ⟨pg, hpg⟩ := hall x h
        exact Or.inr (by rw [hpg]; trivial)
    cases hp : readNodePages k env lim d.Id cluster lim.pages 1 []
        (tr ++ [.DescribeKubernetesCluster d.Id]) with
    | failed err tr1 =>
      rw [hp] at he hpages
      exact hpages e he
    | panicked tr1 =>
      rw [hp] at he hpages
      exact hpages e he
    | unfinished tr1 =>
      rw [hp] at he hpages
      exact hpages e he
    | done workerNodes tr1 =>
      rw [hp] at he hpages
      simp only [Outcome.trace] at he
      rcases (readCredentials_events env _ tr1).2 e he with h | h
      · exact hpages e h
      · refine Or.inr ?_
        cases e <;> exact h

/-- What every managed-cluster Read does about the credentials: (1) with
`kube_config` unset or empty, no get-cluster-config call is issued; (2) every file
Read writes goes to a non-empty path configured in `client_cert`, `client_key`,
`cluster_ca_cert` or `kube_config`, so a field without path has no file written;
(3) the get-cluster-certs call, unlike the get-cluster-config call, is not guarded:
every Read that describes the cluster and returns `nil` has issued it, whether or
not a certificate path is configured. -/
theorem read_credentials_frame (k : Consts) (env : Remote) (lim : Limits)
    (d : ClusterData) (tr : List Event) :
    (d.kube_config = "" →
      ∀ id, Event.GetClusterConfig id ∈
          (resourceAlicloudCSManagedKubernetesRead k env lim d tr).trace →
        Event.GetClusterConfig id ∈ tr) ∧
    (∀ p c, Event.writeToFile p c ∈
        (resourceAlicloudCSManagedKubernetesRead k env lim d tr).trace →
      Event.writeToFile p c ∈ tr ∨
        (p ≠ "" ∧
          (p = d.client_cert ∨ p = d.client_key ∨ p = d.cluster_ca_cert ∨ p = d.kube_config))) ∧
    (∀ (cluster : KubernetesCluster) (r : Result ClusterData),
      env.DescribeKubernetesCluster tr d.Id = .ok cluster →
      resourceAlicloudCSManagedKubernetesRead k env lim d tr = .returned r →
      r.err = none → Event.GetClusterCerts d.Id ∈ r.trace) := by
  refine ⟨?_, ?_, ?_⟩
  · intro hk id hid
    rcases read_events k env lim d tr _ hid with h | h
    · exact h
    · exact absurd hk h
  · intro p c hpc
    rcases read_events k env lim d tr _ hpc with h | h
    · exact Or.inl h
    · exact Or.inr h
  · intro cluster r hd hread herr
    simp only [resourceAlicloudCSManagedKubernetesRead, hd] at hread
    cases hp : readNodePages k env lim d.Id cluster lim.pages 1 []
        (tr ++ [.DescribeKubernetesCluster d.Id]) with
    | failed err tr1 =>
      rw [hp] at hread
      simp only [Outcome.returned.injEq] at hread
      rw [← hread] at herr
      cases herr
    | panicked tr1 => rw [hp] at hread; cases hread
    | unfinished tr1 => rw [hp] at hread; cases hread
    | done workerNodes tr1 =>
      rw [hp] at hread
      simp only [Outcome.returned.injEq] at hread
      rw [← hread]
      exact (readCredentials_events env _ tr1).1

/-- The sample cluster has no `kube_config` path, and its Read issues no
get-cluster-config call. -/
theorem read_credentials_frame_witness :
    sampleCluster.kube_config = "" ∧
      ∀ id, Event.GetClusterConfig id ∈
          (resourceAlicloudCSManagedKubernetesRead sampleConsts quietRemote sampleLimits
            sampleCluster []).trace →
        Event.GetClusterConfig id ∈ ([] : List Event) :=
  ⟨rfl,
    (read_credentials_frame sampleConsts quietRemote sampleLimits sampleCluster []).1 rfl⟩

/-- C8 at the failing input: the sample cluster has none of the three certificate
paths configured (and no `kube_config` path), every remote call succeeds, and Read
issues the get-cluster-certs call all the same, where C8 has no fetch for a
credential field without destination path; the get-cluster-config call, whose
block guards the fetch, is not issued. -/
theorem read_fetches_certs_without_path :
    sampleCluster.client_cert = "" ∧ sampleCluster.client_key = "" ∧
      sampleCluster.cluster_ca_cert = "" ∧ sampleCluster.kube_config = "" ∧
      (resourceAlicloudCSManagedKubernetesRead sampleConsts quietRemote sampleLimits
        sampleCluster []).trace =
        [.DescribeKubernetesCluster "c-1", .GetKubernetesClusterNodes "c-1" 1 50,
          .GetKubernetesClusterNodes "c-1" 1 50, .GetClusterCerts "c-1"] := by
  refine ⟨rfl, rfl, rfl, rfl, ?_⟩
  decide

/-! ## Deduplicating the instance types -/

/-- Taking the element at a position out of a list and putting it in front gives
a permutation of the list. -/
theorem getD_cons_eraseIdx_perm (l : List String) (j : Nat) (hj : j < l.length)
    (dflt : String) : (l.getD j dflt :: l.eraseIdx j).Perm l := by
  induction l generalizing j with
  | nil => simp at hj
  | cons a rest ih =>
    cases j with
    | zero => simp
    | succ j =>
      have hj1 : j < rest.length := by simpa using hj
      have h := ih j hj1
      simp only [List.getD_cons_succ, List.eraseIdx_cons_succ]
      exact (List.Perm.swap a (rest.getD j dflt) (rest.eraseIdx j)).trans (h.cons a)

/-- Ranging over all the keys of a map lists each key once, in some order. -/
theorem rangeKeys_perm (pick : Nat → Nat) (n : Nat) (i : Nat) (keys : List String)
    (hn : keys.length = n) : (rangeKeys pick n i keys).Perm keys := by
  induction n generalizing i keys with
  | zero =>
    have : keys = [] := List.length_eq_zero.mp hn
    subst this
    simp [rangeKeys]
  | succ n ih =>
    cases keys with
    | nil => simp at hn
    | cons key rest =>
      have hlen : rest.length = n := by simpa using hn
      have hj : pick i % (rest.length + 1) < (key :: rest).length := by
        simpa using Nat.mod_lt (pick i) (Nat.succ_pos rest.length)
      have herase : ((key :: rest).eraseIdx (pick i % (rest.length + 1))).length = n := by
        rw [List.length_eraseIdx, if_pos hj]
        simpa using hlen
      have hrec := ih (i + 1) _ herase
      simp only [rangeKeys]
      exact (hrec.cons _).trans (getD_cons_eraseIdx_perm (key :: rest) _ hj key)

/-- The loop of `List.eraseDups` keeps its accumulator free of repetitions and
collects exactly the members of its two arguments. -/
theorem eraseDups_loop_spec (as bs : List String) (hbs : bs.Nodup) :
    (List.eraseDups.loop as bs).Nodup ∧
      ∀ x, x ∈ List.eraseDups.loop as bs ↔ x ∈ as ∨ x ∈ bs := by
  induction as generalizing bs with
  | nil =>
    simp only [List.eraseDups.loop]
    exact ⟨List.nodup_reverse.mpr hbs, by simp⟩
  | cons a rest ih =>
    by_cases ha : a ∈ bs
    · have he : bs.elem a = true := by simpa using ha
      simp only [List.eraseDups.loop, he]
      obtain ⟨h1, h2⟩ := ih bs hbs
      refine ⟨h1, fun x => ?_⟩
      rw [h2 x]
      constructor
      · rintro (h | h)
        · exact Or.inl (List.mem_cons_of_mem a h)
        · exact Or.inr h
      · rintro (h | h)
        · rcases List.mem_cons.mp h with h | h
          · exact Or.inr (h ▸ ha)
          · exact Or.inl h
        · exact Or.inr h
    · have he : bs.elem a = false := by simpa using ha
      simp only [List.eraseDups.loop, he]
      obtain ⟨h1, h2⟩ := ih (a :: bs) (List.nodup_cons.mpr ⟨ha, hbs⟩)
      refine ⟨h1, fun x => ?_⟩
      rw [h2 x]
      simp only [List.mem_cons]
      tauto

/-- C11: for every list of instance types, whatever order the runtime ranges over
the map in, `deduplicateInstanceTypes` returns a list without repeated element
whose members are exactly the members of the input; its length is the number of
distinct elements of the input, and it is empty for the empty input. -/
theorem deduplicateInstanceTypes_distinct (env : Remote) (instanceTypes : List String) :
    (deduplicateInstanceTypes env instanceTypes).Nodup ∧
      (∀ x, x ∈ deduplicateInstanceTypes env instanceTypes ↔ x ∈ instanceTypes) ∧
      (deduplicateInstanceTypes env instanceTypes).length = instanceTypes.toFinset.card ∧
      deduplicateInstanceTypes env [] = [] := by
  have hperm : (deduplicateInstanceTypes env instanceTypes).Perm instanceTypes.eraseDups :=
    rangeKeys_perm env.mapPick _ 0 instanceTypes.eraseDups rfl
  obtain ⟨hnd, hmem⟩ := eraseDups_loop_spec instanceTypes [] List.nodup_nil
  have hnodup : (deduplicateInstanceTypes env instanceTypes).Nodup :=
    hperm.nodup_iff.mpr hnd
  have hmem1 : ∀ x, x ∈ deduplicateInstanceTypes env instanceTypes ↔ x ∈ instanceTypes := by
    intro x
    rw [hperm.mem_iff]
    have := hmem x
    simpa [List.eraseDups] using this
  refine ⟨hnodup, hmem1, ?_, rfl⟩
  rw [← List.toFinset_card_of_nodup hnodup]
  congr 1
  ext x
  simp [hmem1 x]

/-! ## Cluster Delete succeeds only on a cluster reported absent -/

/-- A retry loop that ends with `nil` has run an attempt that returned `nil`. -/
theorem Retry_nil_attempt {σ ε : Type} (f : σ → Option (RetryError ε) × σ) (n : Nat)
    (s s1 : σ) (h : Retry f n s = (none, s1)) : ∃ s0, f s0 = (none, s1) := by
  induction n generalizing s with
  | zero =>
    refine ⟨s, ?_⟩
    cases hf : f s with
    | mk r s2 =>
      rw [Retry, hf] at h
      cases r with
      | none => simpa using h
      | some re => cases re <;> simp at h
  | succ n ih =>
    cases hf : f s with
    | mk r s2 =>
      rw [Retry, hf] at h
      cases r with
      | none => exact ⟨s, by rw [hf]; simpa using h⟩
      | some re =>
        cases re with
        | RetryableError e => exact ih s2 (by simpa using h)
        | NonRetryableError e => simp at h

/-- An attempt of the delete loop returns `nil` exactly when the cluster is
reported absent to it. -/
theorem deleteClusterAttempt_nil_iff (k : Consts) (env : Remote) (id : String)
    (h : List Event) :
    (deleteClusterAttempt k env id h).1 = none ↔ reportedAbsent k env id h := by
  unfold deleteClusterAttempt reportedAbsent
  cases hdel : env.DeleteCluster h id with
  | some e =>
    by_cases hnf : NotFoundError e = true ∨ IsExceptedError e k.ErrorClusterNotFound = true
    · simp [hdel, hnf]
    · simp [hdel, hnf]
  | none =>
    cases hdesc : env.DescribeCluster (h ++ [.DeleteCluster id]) id with
    | error e =>
      by_cases hnf : NotFoundError e = true ∨ IsExceptedError e k.ErrorClusterNotFound = true
      · simp [hdel, hdesc, hnf]
      · simp [hdel, hdesc, hnf]
    | ok cluster =>
      by_cases hid : cluster.ClusterID = ""
      · simp [hdel, hdesc, hid]
      · simp [hdel, hdesc, hid]

/-- C13: managed-cluster Delete reports success only when the remote system has
reported the cluster absent. (1) An attempt of the delete loop ends with `nil` if
and only if the delete-cluster call reports not-found, or it succeeds and the
describe call reports not-found or returns a cluster with an empty cluster ID.
(2) Whenever describe returns a cluster with a non-empty ID the attempt is
retryable, whatever the state of the cluster. (3) A describe failure other than
not-found is non-retryable and ends the loop at once with that error. (4) A Delete
that returns `nil` has made an attempt to which the cluster was reported absent. -/
theorem delete_success_only_when_absent (k : Consts) (env : Remote) :
    (∀ (id : String) (h : List Event),
      (deleteClusterAttempt k env id h).1 = none ↔ reportedAbsent k env id h) ∧
    (∀ (id : String) (h : List Event) (cluster : ClusterType),
      env.DeleteCluster h id = none →
      env.DescribeCluster (h ++ [.DeleteCluster id]) id = .ok cluster →
      cluster.ClusterID ≠ "" →
      deleteClusterAttempt k env id h =
        (some (.RetryableError (.Errorf "Delete ManagedKubernetes Cluster timeout.")),
          h ++ [.DeleteCluster id, .DescribeCluster id])) ∧
    (∀ (id : String) (h : List Event) (e : Err) (n : Nat),
      env.DeleteCluster h id = none →
      env.DescribeCluster (h ++ [.DeleteCluster id]) id = .error e →
      (NotFoundError e || IsExceptedError e k.ErrorClusterNotFound) = false →
      deleteClusterAttempt k env id h =
          (some (.NonRetryableError
            (.ErrorfWith "Describing ManagedKubernetes Cluster got an error: %#v" (.sdk e))),
            h ++ [.DeleteCluster id, .DescribeCluster id]) ∧
        Retry (deleteClusterAttempt k env id) n h =
          (some (.ErrorfWith "Describing ManagedKubernetes Cluster got an error: %#v" (.sdk e)),
            h ++ [.DeleteCluster id, .DescribeCluster id])) ∧
    (∀ (lim : Limits) (d : ClusterData) (tr : List Event),
      (resourceAlicloudCSManagedKubernetesDelete k env lim d tr).err = none →
      ∃ h, reportedAbsent k env d.Id h) := by
  refine ⟨fun id h => deleteClusterAttempt_nil_iff k env id h, ?_, ?_, ?_⟩
  · intro id h cluster hdel hdesc hid
    simp [deleteClusterAttempt, hdel, hdesc, hid]
  · intro id h e n hdel hdesc hnf
    have hatt : deleteClusterAttempt k env id h =
        (some (.NonRetryableError
          (.ErrorfWith "Describing ManagedKubernetes Cluster got an error: %#v" (.sdk e))),
          h ++ [.DeleteCluster id, .DescribeCluster id]) := by
      simp [deleteClusterAttempt, hdel, hdesc, hnf]
    exact ⟨hatt, Retry_of_nonRetryable _ n h _ _ hatt⟩
  · intro lim d tr herr
    cases hret : Retry (deleteClusterAttempt k env d.Id) lim.deleteCluster tr with
    | mk r tr1 =>
      simp only [resourceAlicloudCSManagedKubernetesDelete, hret] at herr
      subst herr
      obtain ⟨h, hh⟩ := Retry_nil_attempt _ _ _ _ hret
      exact ⟨h, (deleteClusterAttempt_nil_iff k env d.Id h).mp (by rw [hh])⟩

/-- Witness of C13: on a remote system where the delete-cluster call succeeds and
the cluster is then described with an empty cluster ID, Delete returns `nil`. -/
theorem delete_success_only_when_absent_witness :
    (resourceAlicloudCSManagedKubernetesDelete sampleConsts quietRemote sampleLimits
        sampleCluster []).err = none ∧
      ∃ h, reportedAbsent sampleConsts quietRemote sampleCluster.Id h :=
  ⟨by decide,
    (delete_success_only_when_absent sampleConsts quietRemote).2.2.2 sampleLimits
      sampleCluster [] (by decide)⟩

/-- Go's arithmetic is exact on values inside the range of `int`. -/
theorem wrapInt_of_fits (x : Int) (h : fitsInt x) : wrapInt x = x := by
  unfold fitsInt at h
  unfold wrapInt
  norm_num at h ⊢
  omega

/-- A sum loop of Update is exact when none of its running sums overflows. -/
theorem foldl_wrapInt_sum (l : List Int) (acc : Int)
    (h : ∀ n, fitsInt (acc + (l.take n).sum)) :
    l.foldl (fun s v => wrapInt (s + v)) acc = acc + l.sum := by
  induction l generalizing acc with
  | nil => simp
  | cons v rest ih =>
    have h1 : fitsInt (acc + v) := by simpa using h 1
    have hrest : ∀ n, fitsInt (acc + v + (rest.take n).sum) := by
      intro n
      have := h (n + 1)
      simpa [add_assoc] using this
    simp only [List.foldl_cons, wrapInt_of_fits _ h1, ih (acc + v) hrest, List.sum_cons]
    ring

/-- A conditional write extends the history. -/
theorem writeIfSet_extends (env : Remote) (filePath data : String) (tr : List Event) :
    ∃ rest, (writeIfSet env filePath data tr).2 = tr ++ rest := by
  unfold writeIfSet
  by_cases hp : filePath = ""
  · exact ⟨[], by simp [hp]⟩
  · exact ⟨[.writeToFile filePath data], by simp [hp]⟩

/-- The writes of the certificates extend the history. -/
theorem writeCerts_extends (env : Remote) (d : ClusterData) (cert : ClusterCerts)
    (tr : List Event) : ∃ rest, (writeCerts env d cert tr).2 = tr ++ rest := by
  unfold writeCerts
  obtain ⟨r1, h1⟩ := writeIfSet_extends env d.client_cert cert.Cert tr
  cases hw1 : writeIfSet env d.client_cert cert.Cert tr with
  | mk e1 tr1 =>
    rw [hw1] at h1
    simp only at h1
    cases e1 with
    | some err => exact ⟨r1, h1⟩
    | none =>
      obtain ⟨r2, h2⟩ := writeIfSet_extends env d.client_key cert.Key tr1
      cases hw2 : writeIfSet env d.client_key cert.Key tr1 with
      | mk e2 tr2 =>
        rw [hw2] at h2
        simp only at h2
        cases e2 with
        | some err => exact ⟨r1 ++ r2, by simp only [hw2]; rw [h2, h1, List.append_assoc]⟩
        | none =>
          obtain ⟨r3, h3⟩ := writeIfSet_extends env d.cluster_ca_cert cert.CA tr2
          exact ⟨r1 ++ r2 ++ r3, by simp only [hw2]; rw [h3, h2, h1]; simp⟩

/-- The credential part of Read extends the history. -/
theorem readCredentials_extends (env : Remote) (d : ClusterData) (tr : List Event) :
    ∃ rest, (readCredentials env d tr).trace = tr ++ rest := by
  unfold readCredentials
  cases hc : env.GetClusterCerts tr d.Id with
  | error err => exact ⟨[.GetClusterCerts d.Id], by simp⟩
  | ok cert =>
    obtain ⟨r1, h1⟩ := writeCerts_extends env d cert (tr ++ [.GetClusterCerts d.Id])
    cases hwc : writeCerts env d cert (tr ++ [.GetClusterCerts d.Id]) with
    | mk e tr1 =>
      rw [hwc] at h1
      simp only at h1
      cases e with
      | some err => exact ⟨.GetClusterCerts d.Id :: r1, by simp only [hwc]; rw [h1]; simp⟩
      | none =>
        by_cases hkc : d.kube_config = ""
        · exact ⟨.GetClusterCerts d.Id :: r1, by
            simp only [hwc, hkc, ne_eq, not_true_eq_false, if_false]; rw [h1]; simp⟩
        · cases hg : env.GetClusterConfig tr1 d.Id with
          | error e1 =>
            exact ⟨.GetClusterCerts d.Id :: r1 ++ [.GetClusterConfig d.Id],
              by simp only [hwc, hkc, ne_eq, not_false_eq_true, if_true, hg]; rw [h1]; simp⟩
          | ok config =>
            cases hwf : env.writeToFile (tr1 ++ [.GetClusterConfig d.Id]) d.kube_config config with
            | some e2 =>
              exact ⟨.GetClusterCerts d.Id :: r1 ++
                [.GetClusterConfig d.Id, .writeToFile d.kube_config config],
                by
                  simp only [hwc, hkc, ne_eq, not_false_eq_true, if_true, hg, hwf]
                  rw [h1]; simp⟩
            | none =>
              exact ⟨.GetClusterCerts d.Id :: r1 ++
                [.GetClusterConfig d.Id, .writeToFile d.kube_config config],
                by
                  simp only [hwc, hkc, ne_eq, not_false_eq_true, if_true, hg, hwf]
                  rw [h1]; simp⟩

/-- Read extends the history it is handed. -/
theorem read_extends (k : Consts) (env : Remote) (lim : Limits) (d : ClusterData)
    (tr : List Event) :
    ∃ rest, (resourceAlicloudCSManagedKubernetesRead k env lim d tr).trace = tr ++ rest := by
  unfold resourceAlicloudCSManagedKubernetesRead
  cases hd : env.DescribeKubernetesCluster tr d.Id with
  | error err =>
    by_cases hnf : (NotFoundError err || IsExceptedError err k.ErrorClusterNotFound) = true
    · exact ⟨[.DescribeKubernetesCluster d.Id, .SetId ""], by
        simp only [if_pos hnf, Outcome.trace]⟩
    · exact ⟨[.DescribeKubernetesCluster d.Id], by simp only [if_neg hnf, Outcome.trace]⟩
  | ok cluster =>
    obtain ⟨r1, h1, _⟩ := readNodePages_trace k env lim d.Id cluster lim.pages 1 []
      (tr ++ [.DescribeKubernetesCluster d.Id])
    simp only
    cases hp : readNodePages k env lim d.Id cluster lim.pages 1 []
        (tr ++ [.DescribeKubernetesCluster d.Id]) with
    | failed err tr1 =>
      rw [hp] at h1
      exact ⟨.DescribeKubernetesCluster d.Id :: r1, by
        simp only [Outcome.trace]; simpa [PagesOutcome.trace] using h1⟩
    | panicked tr1 =>
      rw [hp] at h1
      exact ⟨.DescribeKubernetesCluster d.Id :: r1, by
        simp only [Outcome.trace]; simpa [PagesOutcome.trace] using h1⟩
    | unfinished tr1 =>
      rw [hp] at h1
      exact ⟨.DescribeKubernetesCluster d.Id :: r1, by
        simp only [Outcome.trace]; simpa [PagesOutcome.trace] using h1⟩
    | done workerNodes tr1 =>
      rw [hp] at h1
      have h1' : tr1 = tr ++ .DescribeKubernetesCluster d.Id :: r1 := by
        simpa [PagesOutcome.trace] using h1
      obtain ⟨r2, h2⟩ := readCredentials_extends env
        { d with
          name := cluster.Name
          vpc_id := cluster.VPCID
          security_group_id := cluster.SecurityGroupID
          availability_zone := cluster.ZoneId
          worker_nodes := workerNodes } tr1
      refine ⟨.DescribeKubernetesCluster d.Id :: r1 ++ r2, ?_⟩
      simp only [Outcome.trace]
      rw [h2, h1']
      simp

/-- The rename block of Update and the read-back extend the history. -/
theorem updateName_extends (k : Consts) (env : Remote) (lim : Limits) (d : ClusterData)
    (tr : List Event) : ∃ rest, (updateName k env lim d tr).trace = tr ++ rest := by
  unfold updateName
  by_cases hc : d.old_name ≠ d.name ∨ d.old_name_prefix ≠ d.name_prefix
  · rw [if_pos hc]
    generalize (if d.name ≠ "" then d.name else env.PrefixedUniqueId d.name_prefix) = clusterName
    simp only
    obtain ⟨r, hr⟩ := read_extends k env lim
      { d with SetPartial := d.SetPartial ++ ["name", "name_prefix"], Partial := false }
      (tr ++ [.ModifyClusterName d.Id clusterName])
    cases hm : env.ModifyClusterName tr d.Id clusterName with
    | none =>
      exact ⟨.ModifyClusterName d.Id clusterName :: r, by
        simp only []
        rw [hr, List.append_assoc]
        rfl⟩
    | some err =>
      cases hx : IsExceptedError err k.ErrorClusterNameAlreadyExist with
      | false =>
        exact ⟨[.ModifyClusterName d.Id clusterName], by simp [hx, Outcome.trace]⟩
      | true =>
        exact ⟨.ModifyClusterName d.Id clusterName :: r, by
          simp only [hx, Bool.not_true, Bool.false_eq_true, if_false]
          rw [hr, List.append_assoc]
          rfl⟩
  · rw [if_neg hc]
    exact read_extends k env lim { d with Partial := false } tr

/-- C12, as the code has it. (1) When `worker_number` has changed, the scale delta
is the new `worker_number` minus the old one, whatever `worker_numbers` holds,
provided this difference lies in the range of Go's 64-bit `int`. (2) When
`worker_number` has not changed, the delta is the sum of the new `worker_numbers`
minus the sum of the old ones, provided the running sums of both lists and the
difference lie in that range. (3) Whenever one of the two attributes has changed
and the delta is non-negative, the first thing Update does is the scale request
for the cluster, with `Count` equal to the delta. -/
theorem scale_delta (k : Consts) (env : Remote) (lim : Limits) (d : ClusterData)
    (tr : List Event) :
    (d.old_worker_number ≠ d.worker_number →
      fitsInt (d.worker_number - d.old_worker_number) →
      scaleSize d = d.worker_number - d.old_worker_number) ∧
    (d.old_worker_number = d.worker_number →
      (∀ n, fitsInt ((d.old_worker_numbers.take n).sum)) →
      (∀ n, fitsInt ((d.worker_numbers.take n).sum)) →
      fitsInt (d.worker_numbers.sum - d.old_worker_numbers.sum) →
      scaleSize d = d.worker_numbers.sum - d.old_worker_numbers.sum) ∧
    ((d.old_worker_number ≠ d.worker_number ∨ d.old_worker_numbers ≠ d.worker_numbers) →
      0 ≤ scaleSize d →
      ∃ args rest, args.Count = scaleSize d ∧
        (resourceAlicloudCSManagedKubernetesUpdate k env lim d tr).trace =
          tr ++ Event.ScaleKubernetesCluster d.Id args :: rest) := by
  refine ⟨?_, ?_, ?_⟩
  · intro hchange hfit
    simp only [scaleSize, hchange, ne_eq, not_false_eq_true, if_true, wrapInt_of_fits _ hfit]
  · intro hsame hold hnew hfit
    have h1 := foldl_wrapInt_sum d.old_worker_numbers 0 (by simpa using hold)
    have h2 := foldl_wrapInt_sum d.worker_numbers 0 (by simpa using hnew)
    simp only [zero_add] at h1 h2
    simp only [scaleSize, hsame, ne_eq, not_true_eq_false, if_false, h1, h2,
      wrapInt_of_fits _ hfit]
  · intro hchange hpos
    have hs : scaleSize { d with Partial := true } = scaleSize d := by simp [scaleSize]
    have hneg : ¬ scaleSize d < 0 := not_lt.mpr hpos
    unfold resourceAlicloudCSManagedKubernetesUpdate
    simp only [hs]
    rw [if_pos hchange, if_neg hneg]
    generalize hargs : ({
        LoginPassword := d.password
        KeyPair := d.key_name
        WorkerInstanceTypes := deduplicateInstanceTypes env d.worker_instance_types
        WorkerSystemDiskCategory := d.worker_disk_category
        WorkerSystemDiskSize := d.worker_disk_size
        Count := scaleSize d
        WorkerDataDisk := if d.worker_data_disk_category ≠ "" then true else false } :
      KubernetesClusterScaleArgs) = args
    have hcount : args.Count = scaleSize d := by rw [← hargs]
    refine ⟨args, ?_⟩
    cases hscale : env.ScaleKubernetesCluster tr d.Id args with
    | some err => exact ⟨[], hcount, by simp only [Outcome.trace]⟩
    | none =>
      cases hwait : env.WaitForClusterAsyn (tr ++ [.ScaleKubernetesCluster d.Id args]) d.Id
          k.Running with
      | some err =>
        exact ⟨[.WaitForClusterAsyn d.Id k.Running], hcount, by simp [Outcome.trace]⟩
      | none =>
        obtain ⟨r, hr⟩ := updateName_extends k env lim
          { d with Partial := true, SetPartial := d.SetPartial ++ ["worker_number"] }
          (tr ++ [.ScaleKubernetesCluster d.Id args] ++ [.WaitForClusterAsyn d.Id k.Running])
        refine ⟨.WaitForClusterAsyn d.Id k.Running :: r, hcount, ?_⟩
        simp only []
        rw [hr]
        simp

/-- Witness of C12: three workers scaled to five. -/
theorem scale_delta_witness :
    ((3 : Int) ≠ 5 ∨ [(3 : Int)] ≠ [3]) ∧ fitsInt (5 - 3) ∧
      scaleSize { sampleCluster with worker_number := 5 } = 5 - 3 ∧
      (0 : Int) ≤ scaleSize { sampleCluster with worker_number := 5 } ∧
      ∃ args rest, args.Count = scaleSize { sampleCluster with worker_number := 5 } ∧
        (resourceAlicloudCSManagedKubernetesUpdate sampleConsts quietRemote sampleLimits
          { sampleCluster with worker_number := 5 } []).trace =
          [] ++ Event.ScaleKubernetesCluster "c-1" args :: rest :=
  ⟨by decide, by decide,
    (scale_delta sampleConsts quietRemote sampleLimits
      { sampleCluster with worker_number := 5 } []).1 (by decide) (by decide),
    by decide,
    (scale_delta sampleConsts quietRemote sampleLimits
      { sampleCluster with worker_number := 5 } []).2.2 (by decide) (by decide)⟩

/-- C12, as stated, fails where Go's `int` overflows: with the old `worker_number`
three and the new one the least 64-bit integer, the exact difference is negative,
but the computed delta is `9223372036854775805`, and Update issues the scale
request with that `Count`. -/
theorem scale_delta_counterexample :
    underflowCluster.old_worker_number ≠ underflowCluster.worker_number ∧
      underflowCluster.worker_number - underflowCluster.old_worker_number =
        -9223372036854775811 ∧
      scaleSize underflowCluster = 9223372036854775805 ∧
      (resourceAlicloudCSManagedKubernetesUpdate sampleConsts quietRemote sampleLimits
        underflowCluster []).trace.head? =
        some (.ScaleKubernetesCluster "c-1"
          ⟨"", "key", ["ecs.n4.large"], "cloud_efficiency", 40, 9223372036854775805, false⟩) := by
  refine ⟨by decide, by decide, by decide, by decide⟩

/-! ## The pages of worker nodes -/

/-- One round of the page loop is the fetch of the page followed by the mapping
of its nodes and the test that ends the loop. -/
theorem readNodePages_step (k : Consts) (env : Remote) (lim : Limits) (id : String)
    (cluster : KubernetesCluster) (fuel : Nat) (pageNumber : Int)
    (workerNodes : List WorkerNode) (tr : List Event) :
    readNodePages k env lim id cluster (fuel + 1) pageNumber workerNodes tr =
      match fetchPage k env lim id cluster pageNumber tr with
      | (.error err, tr2) => .failed err tr2
      | (.ok (result2, pageSize), tr2) =>
        match mapNodes result2 with
        | none => .panicked tr2
        | some mappings =>
          if (result2.length : Int) < pageSize then
            .done (workerNodes ++ mappings) tr2
          else
            readNodePages k env lim id cluster fuel (pageNumber + 1)
              (workerNodes ++ mappings) tr2 := by
  simp only [readNodePages, fetchPage]
  cases hf : env.GetKubernetesClusterNodes tr id pageNumber k.PageSizeLarge with
  | error e => rfl
  | ok p =>
    obtain ⟨result, pageSize⟩ := p
    by_cases hc : pageNumber = 1 ∧ firstNodeMissing result = true
    · simp only [if_pos hc]
      cases hret : Retry (nodesPollAttempt k env id cluster pageNumber) lim.nodesPoll
          (result, tr ++ [.GetKubernetesClusterNodes id pageNumber k.PageSizeLarge]) with
      | mk err st =>
        obtain ⟨result2, tr2⟩ := st
        cases err <;> rfl
    · simp only [if_neg hc]

/-- Nodes that all have an IP address are mapped one by one. -/
theorem mapNodes_of_addresses (result : List KubernetesNodeType)
    (h : ∀ node ∈ result, node.IpAddress ≠ []) :
    mapNodes result = some (result.map nodeMapping) := by
  induction result with
  | nil => rfl
  | cons node rest ih =>
    have hrest := ih (fun n hn => h n (List.mem_cons_of_mem node hn))
    have hnode := h node (List.mem_cons_self node rest)
    cases hip : node.IpAddress with
    | nil => exact absurd hip hnode
    | cons ip ips => simp [mapNodes, hip, hrest, nodeMapping]

/-- A node without IP address makes the mapping of its page panic. -/
theorem mapNodes_of_missing_address (result : List KubernetesNodeType)
    (h : ∃ node ∈ result, node.IpAddress = []) : mapNodes result = none := by
  induction result with
  | nil => obtain ⟨n, hn, _⟩ := h; simp at hn
  | cons node rest ih =>
    cases hip : node.IpAddress with
    | nil => simp [mapNodes, hip]
    | cons ip ips =>
      have hrest : ∃ n ∈ rest, n.IpAddress = [] := by
        obtain ⟨n, hn, hnil⟩ := h
        rcases List.mem_cons.mp hn with h1 | h1
        · subst h1; rw [hip] at hnil; cases hnil
        · exact ⟨n, h1, hnil⟩
      simp [mapNodes, hip, ih hrest]

/-- The credential part of Read leaves the resource data as they are. -/
theorem readCredentials_data (env : Remote) (d : ClusterData) (tr : List Event) :
    (readCredentials env d tr).d = d := by
  unfold readCredentials
  cases env.GetClusterCerts tr d.Id with
  | error err => rfl
  | ok cert =>
    simp only
    cases writeCerts env d cert (tr ++ [.GetClusterCerts d.Id]) with
    | mk e tr1 =>
      cases e with
      | some err => rfl
      | none =>
        simp only
        by_cases hkc : d.kube_config = ""
        · simp [hkc]
        · simp only [hkc, ne_eq, not_false_eq_true, if_true]
          cases env.GetClusterConfig tr1 d.Id with
          | error e1 => rfl
          | ok config =>
            simp only
            cases env.writeToFile (tr1 ++ [.GetClusterConfig d.Id]) d.kube_config config <;> rfl

/-- The fetch of a page adds at least one request, and only requests for that
page number. -/
theorem fetchPage_trace (k : Consts) (env : Remote) (lim : Limits) (id : String)
    (cluster : KubernetesCluster) (pageNumber : Int) (tr : List Event) :
    ∃ rest, (fetchPage k env lim id cluster pageNumber tr).2 =
        tr ++ .GetKubernetesClusterNodes id pageNumber k.PageSizeLarge :: rest ∧
      ∀ e ∈ rest, e = Event.GetKubernetesClusterNodes id pageNumber k.PageSizeLarge := by
  unfold fetchPage
  cases hf : env.GetKubernetesClusterNodes tr id pageNumber k.PageSizeLarge with
  | error e => exact ⟨[], by simp, by simp⟩
  | ok p =>
    obtain ⟨result, pageSize⟩ := p
    by_cases hc : pageNumber = 1 ∧ firstNodeMissing result = true
    · obtain ⟨rest, h1, h2⟩ := nodes_poll_trace k env id cluster pageNumber lim.nodesPoll
        (result, tr ++ [.GetKubernetesClusterNodes id pageNumber k.PageSizeLarge])
      refine ⟨rest, ?_, h2⟩
      simp only [if_pos hc]
      cases hret : Retry (nodesPollAttempt k env id cluster pageNumber) lim.nodesPoll
          (result, tr ++ [.GetKubernetesClusterNodes id pageNumber k.PageSizeLarge]) with
      | mk err st =>
        obtain ⟨result2, tr2⟩ := st
        rw [hret] at h1
        simp only at h1
        cases err <;> simp [h1]
    · exact ⟨[], by simp [if_neg hc], by simp⟩

/-- When the pages fetched all hold nodes with an IP address, and the page budget
suffices, the page loop ends with the mappings of their nodes, in order, appended
to `workerNodes`. -/
theorem readNodePages_of_fetched (k : Consts) (env : Remote) (lim : Limits) (id : String)
    (cluster : KubernetesCluster) (pageNumber : Int) (tr tr1 : List Event)
    (pages : List (List KubernetesNodeType))
    (hpages : FetchedPages k env lim id cluster pageNumber tr pages tr1)
    (haddr : ∀ page ∈ pages, ∀ node ∈ page, node.IpAddress ≠ [])
    (fuel : Nat) (hfuel : pages.length ≤ fuel) (workerNodes : List WorkerNode) :
    readNodePages k env lim id cluster fuel pageNumber workerNodes tr =
      .done (workerNodes ++ pages.flatten.map nodeMapping) tr1 := by
  induction hpages generalizing fuel workerNodes with
  | last pn tr tr1 result pageSize hfetch hshort =>
    cases fuel with
    | zero => simp at hfuel
    | succ fuel =>
      have hmap := mapNodes_of_addresses result (haddr result (by simp))
      rw [readNodePages_step, hfetch]
      simp only [hmap, if_pos hshort]
      simp
  | next pn tr tr1 tr2 result pageSize pages hfetch hfull _ ih =>
    cases fuel with
    | zero => simp at hfuel
    | succ fuel =>
      have hmap := mapNodes_of_addresses result (haddr result (by simp))
      have hrec := ih (fun page hp => haddr page (List.mem_cons_of_mem result hp)) fuel
        (by simpa using hfuel) (workerNodes ++ result.map nodeMapping)
      rw [readNodePages_step, hfetch]
      simp only [hmap, if_neg hfull, hrec]
      simp

/-- The requests made while the pages are fetched are requests for the page
numbers `pageNumber`, `pageNumber + 1`, ..., one page number per page, and each
of these page numbers is requested. -/
theorem fetched_pages_requests (k : Consts) (env : Remote) (lim : Limits) (id : String)
    (cluster : KubernetesCluster) (pageNumber : Int) (tr tr1 : List Event)
    (pages : List (List KubernetesNodeType))
    (hpages : FetchedPages k env lim id cluster pageNumber tr pages tr1) :
    ∃ rest, tr1 = tr ++ rest ∧
      (∀ e ∈ rest, ∃ i : Nat, i < pages.length ∧
        e = Event.GetKubernetesClusterNodes id (pageNumber + i) k.PageSizeLarge) ∧
      (∀ i : Nat, i < pages.length →
        Event.GetKubernetesClusterNodes id (pageNumber + i) k.PageSizeLarge ∈ rest) := by
  induction hpages with
  | last pn tr tr1 result pageSize hfetch hshort =>
    obtain ⟨rest, h1, h2⟩ := fetchPage_trace k env lim id cluster pn tr
    rw [hfetch] at h1
    simp only at h1
    refine ⟨.GetKubernetesClusterNodes id pn k.PageSizeLarge :: rest, h1, ?_, ?_⟩
    · intro e he
      refine ⟨0, by simp, ?_⟩
      rcases List.mem_cons.mp he with h | h
      · simpa using h
      · simpa using h2 e h
    · intro i hi
      have hi0 : i = 0 := by simpa using hi
      subst hi0
      simp
  | next pn tr tr1 tr2 result pageSize pages hfetch hfull _ ih =>
    obtain ⟨rest1, h1, h2⟩ := fetchPage_trace k env lim id cluster pn tr
    rw [hfetch] at h1
    simp only at h1
    obtain ⟨rest2, h3, h4, h5⟩ := ih
    refine ⟨.GetKubernetesClusterNodes id pn k.PageSizeLarge :: rest1 ++ rest2, ?_, ?_, ?_⟩
    · rw [h3, h1]; simp
    · intro e he
      rcases List.mem_append.mp he with h | h
      · refine ⟨0, by simp, ?_⟩
        rcases List.mem_cons.mp h with h | h
        · simpa using h
        · simpa using h2 e h
      · obtain ⟨i, hi, hei⟩ := h4 e h
        refine ⟨i + 1, by simpa using hi, ?_⟩
        rw [hei]
        congr 1
        push_cast
        ring
    · intro i hi
      cases i with
      | zero => simp
      | succ i =>
        have hmem := h5 i (by simpa using hi)
        refine List.mem_append.mpr (Or.inr ?_)
        have hpn : pn + ((i + 1 : Nat) : Int) = pn + 1 + (i : Int) := by push_cast; ring
        rw [hpn]
        exact hmem

/-- C14: in managed-cluster Read, let the pages the loop holds be fetched with the
page numbers 1, 2, 3, ... up to and including the first page that holds fewer nodes
than the page size (for page 1, the page held is the one left by the poll when the
poll runs). (1) Provided every node of these pages has at least one IP address and
the page budget suffices, Read returns and `worker_nodes` is the concatenation of
the pages, in order, each node mapped to its instance ID, its instance name and
its first IP address. (2) The requests made for the pages are requests for exactly
these page numbers. (3) In any round of the loop, a page with a node that has no
IP address makes the mapping panic, and Read with it when this is the first
page. -/
theorem worker_nodes_pages (k : Consts) (env : Remote) (lim : Limits) :
    (∀ (d : ClusterData) (tr tr1 : List Event) (cluster : KubernetesCluster)
        (pages : List (List KubernetesNodeType)),
      env.DescribeKubernetesCluster tr d.Id = .ok cluster →
      FetchedPages k env lim d.Id cluster 1 (tr ++ [.DescribeKubernetesCluster d.Id]) pages tr1 →
      (∀ page ∈ pages, ∀ node ∈ page, node.IpAddress ≠ []) →
      pages.length ≤ lim.pages →
      ∃ r, resourceAlicloudCSManagedKubernetesRead k env lim d tr = .returned r ∧
        r.d.worker_nodes = pages.flatten.map nodeMapping) ∧
    (∀ (id : String) (cluster : KubernetesCluster) (pageNumber : Int) (tr tr1 : List Event)
        (pages : List (List KubernetesNodeType)),
      FetchedPages k env lim id cluster pageNumber tr pages tr1 →
      ∃ rest, tr1 = tr ++ rest ∧
        (∀ e ∈ rest, ∃ i : Nat, i < pages.length ∧
          e = Event.GetKubernetesClusterNodes id (pageNumber + i) k.PageSizeLarge) ∧
        (∀ i : Nat, i < pages.length →
          Event.GetKubernetesClusterNodes id (pageNumber + i) k.PageSizeLarge ∈ rest)) ∧
    (∀ (id : String) (cluster : KubernetesCluster) (fuel : Nat) (pageNumber : Int)
        (workerNodes : List WorkerNode) (tr tr1 : List Event)
        (result : List KubernetesNodeType) (pageSize : Int),
      fetchPage k env lim id cluster pageNumber tr = (.ok (result, pageSize), tr1) →
      (∃ node ∈ result, node.IpAddress = []) →
      readNodePages k env lim id cluster (fuel + 1) pageNumber workerNodes tr =
        .panicked tr1) ∧
    (∀ (d : ClusterData) (tr tr1 : List Event) (cluster : KubernetesCluster)
        (result : List KubernetesNodeType) (pageSize : Int),
      env.DescribeKubernetesCluster tr d.Id = .ok cluster →
      fetchPage k env lim d.Id cluster 1 (tr ++ [.DescribeKubernetesCluster d.Id]) =
        (.ok (result, pageSize), tr1) →
      (∃ node ∈ result, node.IpAddress = []) →
      0 < lim.pages →
      resourceAlicloudCSManagedKubernetesRead k env lim d tr =
        .panicked
          { d with
            name := cluster.Name
            vpc_id := cluster.VPCID
            security_group_id := cluster.SecurityGroupID
            availability_zone := cluster.ZoneId } tr1) := by
  refine ⟨?_, ?_, ?_, ?_⟩
  · intro d tr tr1 cluster pages hdesc hpages haddr hfuel
    have hrun := readNodePages_of_fetched k env lim d.Id cluster 1 _ tr1 pages hpages haddr
      lim.pages hfuel []
    have hread : resourceAlicloudCSManagedKubernetesRead k env lim d tr =
        .returned (readCredentials env
          { d with
            name := cluster.Name
            vpc_id := cluster.VPCID
            security_group_id := cluster.SecurityGroupID
            availability_zone := cluster.ZoneId
            worker_nodes := [] ++ pages.flatten.map nodeMapping } tr1) := by
      simp only [resourceAlicloudCSManagedKubernetesRead, hdesc, hrun]
    exact ⟨_, hread, by rw [readCredentials_data]; simp⟩
  · intro id cluster pageNumber tr tr1 pages hpages
    exact fetched_pages_requests k env lim id cluster pageNumber tr tr1 pages hpages
  · intro id cluster fuel pageNumber workerNodes tr tr1 result pageSize hfetch hbad
    rw [readNodePages_step, hfetch]
    simp only [mapNodes_of_missing_address result hbad]
  · intro d tr tr1 cluster result pageSize hdesc hfetch hbad hfuel
    obtain ⟨fuel, hf⟩ : ∃ fuel, lim.pages = fuel + 1 := ⟨lim.pages - 1, by omega⟩
    have hrun : readNodePages k env lim d.Id cluster lim.pages 1 []
        (tr ++ [.DescribeKubernetesCluster d.Id]) = .panicked tr1 := by
      rw [hf, readNodePages_step, hfetch]
      simp only [mapNodes_of_missing_address result hbad]
    simp only [resourceAlicloudCSManagedKubernetesRead, hdesc, hrun]

/-- Witness of C14: three worker nodes on two pages of size two; the first node
has two IP addresses. Read returns and `worker_nodes` lists the three nodes in
order, each with its first address. And on a remote system whose only node has no
IP address, Read panics after the fetch of the first page. -/
theorem worker_nodes_pages_witness :
    twoPagesRemote.DescribeKubernetesCluster [] sampleCluster.Id =
        .ok ⟨"k8s", "vpc-1", "sg-1", "zone-a", "running"⟩ ∧
      ([[⟨"i-1", "node-1", ["10.0.0.1", "10.0.1.1"]⟩, ⟨"i-2", "node-2", ["10.0.0.2"]⟩],
          [⟨"i-3", "node-3", ["10.0.0.3"]⟩]] : List (List KubernetesNodeType)).length ≤
        sampleLimits.pages ∧
      (∃ r, resourceAlicloudCSManagedKubernetesRead sampleConsts twoPagesRemote sampleLimits
          sampleCluster [] = .returned r ∧
        r.d.worker_nodes =
          ([[⟨"i-1", "node-1", ["10.0.0.1", "10.0.1.1"]⟩, ⟨"i-2", "node-2", ["10.0.0.2"]⟩],
            [⟨"i-3", "node-3", ["10.0.0.3"]⟩]] : List (List KubernetesNodeType)).flatten.map
            nodeMapping) ∧
      resourceAlicloudCSManagedKubernetesRead sampleConsts noAddressRemote sampleLimits
          sampleCluster [] =
        .panicked
          { sampleCluster with
            name := "k8s", vpc_id := "vpc-1", security_group_id := "sg-1",
            availability_zone := "zone-a" }
          [.DescribeKubernetesCluster "c-1", .GetKubernetesClusterNodes "c-1" 1 50] :=
  ⟨rfl, by decide,
    (worker_nodes_pages sampleConsts twoPagesRemote sampleLimits).1 sampleCluster []
      [.DescribeKubernetesCluster "c-1", .GetKubernetesClusterNodes "c-1" 1 50,
        .GetKubernetesClusterNodes "c-1" 2 50]
      ⟨"k8s", "vpc-1", "sg-1", "zone-a", "running"⟩ _ rfl
      (FetchedPages.next 1 _ [.DescribeKubernetesCluster "c-1",
          .GetKubernetesClusterNodes "c-1" 1 50] _ _ 2 _ rfl (by decide)
        (FetchedPages.last 2 _ _ _ 2 rfl (by decide)))
      (by decide) (by decide),
    (worker_nodes_pages sampleConsts noAddressRemote sampleLimits).2.2.2 sampleCluster []
      [.DescribeKubernetesCluster "c-1", .GetKubernetesClusterNodes "c-1" 1 50]
      ⟨"k8s", "vpc-1", "sg-1", "zone-a", "running"⟩ [⟨"i-1", "node-1", []⟩] 50 rfl rfl
      ⟨⟨"i-1", "node-1", []⟩, by simp, rfl⟩ (by decide)⟩

end Alicloud
